import Mathlib

/-!
Formal model of the flight-distribution adapter of the-book-platform.

The Python sources are shallowly embedded: JSON / Python values become the
inductive type `JVal`, dictionaries become association lists, floats become
exact decimals (`Dec`), network transports become explicit oracles passed to
the functions that call them, and the current instant becomes an explicit
parameter.  Each embedded definition carries a comment naming the Python
function of the repository it translates.
-/

/-- Exact decimal number with value `m / 10 ^ e`.  Models JSON numbers and the
Python floats derived from them; binary floating-point rounding is not
modelled (no verified property depends on it).  A Python `int` is represented
with `e = 0`; a float keeps the number of fractional digits it was written
with, mirroring the runtime `int` / `float` distinction. -/
structure Dec where
  m : Int
  e : Nat
deriving DecidableEq

/-- `10 ^ e` as an integer, by structural recursion so that it reduces in the
kernel. -/
def pow10 : Nat → Int
  | 0 => 1
  | n + 1 => 10 * pow10 n

/-- Round to the nearest integer, ties to even: the rounding mode of Python
`round` (and of float formatting). -/
def decRound (d : Dec) : Int :=
  let e10 := pow10 d.e
  let q := Int.ediv d.m e10
  let r := Int.emod d.m e10
  if 2 * r < e10 then q
  else if e10 < 2 * r then q + 1
  else if q % 2 = 0 then q else q + 1

/-- `abs (value - round (value)) < 1e-9`, computed exactly:
`|m - r * 10^e| * 10^9 < 10^e`. -/
def decNearRound (d : Dec) : Bool :=
  (d.m - decRound d * pow10 d.e).natAbs * 1000000000 < (pow10 d.e).toNat

/-- Python `float.is_integer`. -/
def decIsInt (d : Dec) : Bool := Int.emod d.m (pow10 d.e) == 0

/-- Python `int(float)`: truncation toward zero. -/
def decTruncInt (d : Dec) : Int := Int.tdiv d.m (pow10 d.e)

/-- Drop trailing `'0'` characters. -/
def dropTrailingZeros (cs : List Char) : List Char :=
  (cs.reverse.dropWhile (fun c => c = '0')).reverse

/-- Left-pad a digit list with `'0'` up to length `n`. -/
def padZerosTo (n : Nat) (cs : List Char) : List Char :=
  List.replicate (n - cs.length) '0' ++ cs

/-- Python `str` of the number: integers print without a point, floats print
their (trailing-zero-trimmed) decimal expansion with at least one fractional
digit. -/
def decToStr (d : Dec) : String :=
  if d.e = 0 then toString d.m
  else
    let ds := padZerosTo (d.e + 1) (toString d.m.natAbs).toList
    let ip := ds.take (ds.length - d.e)
    let fp := dropTrailingZeros (ds.drop (ds.length - d.e))
    let fp := if fp.isEmpty then ['0'] else fp
    (if d.m < 0 then "-" else "") ++ String.mk ip ++ "." ++ String.mk fp

/-- One decimal digit character. -/
def digitChar (n : Nat) : Char := Char.ofNat (48 + n % 10)

/-- Parse an unbroken run of decimal digits, returning the digits and the
rest. -/
def takeDigitRun : List Char → List Char × List Char
  | [] => ([], [])
  | c :: rest =>
    if c.isDigit then
      let (ds, r) := takeDigitRun rest
      (c :: ds, r)
    else ([], c :: rest)

/-- Digit list to natural number. -/
def digitsToNat (cs : List Char) : Nat :=
  cs.foldl (fun acc c => acc * 10 + (c.toNat - 48)) 0

/-- Python `float(str)` on the shapes the adapter meets: optional sign, then
`digits`, `digits.digits`, `digits.` or `.digits` (exponents, `inf` and `nan`
are not used by the adapter and are not modelled).  Surrounding Python
whitespace is accepted. -/
def parseFloatStr (s : String) : Option Dec :=
  let cs := (s.toList.dropWhile (fun c => c = ' ' ∨ c = '\t' ∨ c = '\n' ∨ c = '\r' ∨ c = '\x0b' ∨ c = '\x0c')).reverse
  let cs := (cs.dropWhile (fun c => c = ' ' ∨ c = '\t' ∨ c = '\n' ∨ c = '\r' ∨ c = '\x0b' ∨ c = '\x0c')).reverse
  let (sign, cs) := match cs with
    | '-' :: r => (true, r)
    | '+' :: r => (false, r)
    | r => (false, r)
  let (ip, cs) := takeDigitRun cs
  match cs with
  | [] =>
    if ip.isEmpty then none
    else some ⟨(if sign then -1 else 1) * (digitsToNat ip : Int), 0⟩
  | '.' :: r =>
    let (fp, rest) := takeDigitRun r
    if rest.isEmpty ∧ ¬ (ip.isEmpty ∧ fp.isEmpty) then
      some ⟨(if sign then -1 else 1) * (digitsToNat (ip ++ fp) : Int), fp.length⟩
    else none
  | _ => none

/-- Group a reversed digit list in threes with `','`. -/
def group3 : List Char → List Char
  | a :: b :: c :: d :: rest => a :: b :: c :: ',' :: group3 (d :: rest)
  | l => l

/-- `f-string` `:,` grouping of a natural number. -/
def groupNat (n : Nat) : String :=
  String.mk (group3 (toString n).toList.reverse).reverse

/-- `f-string` `:,` grouping of an integer. -/
def groupInt (n : Int) : String :=
  (if n < 0 then "-" else "") ++ groupNat n.natAbs

/-- Two-digit zero padding. -/
def pad2 (n : Nat) : String :=
  if n < 10 then "0" ++ toString n else toString n

/-- `f-string` `:,.2f` formatting of the decimal (grouped thousands, exactly
two fractional digits, round half to even). -/
def fmt2dp (d : Dec) : String :=
  let cents := decRound ⟨d.m * 100, d.e⟩
  let a := cents.natAbs
  (if cents < 0 then "-" else "") ++ groupNat (a / 100) ++ "." ++ pad2 (a % 100)

/-- Python / JSON values.  Dictionaries are association lists without
duplicate keys (`json.loads` and the adapter itself never build duplicates);
lookups take the first binding. -/
inductive JVal : Type where
  | null : JVal
  | bool (b : Bool) : JVal
  | str (s : String) : JVal
  | num (d : Dec) : JVal
  | arr (xs : List JVal) : JVal
  | obj (kvs : List (String × JVal)) : JVal

mutual

def jvalBeq : JVal → JVal → Bool
  | .null, .null => true
  | .bool a, .bool b => a == b
  | .str a, .str b => a == b
  | .num a, .num b => decide (a = b)
  | .arr xs, .arr ys => jvalListBeq xs ys
  | .obj xs, .obj ys => jvalKvsBeq xs ys
  | _, _ => false

def jvalListBeq : List JVal → List JVal → Bool
  | [], [] => true
  | x :: xs, y :: ys => jvalBeq x y && jvalListBeq xs ys
  | _, _ => false

def jvalKvsBeq : List (String × JVal) → List (String × JVal) → Bool
  | [], [] => true
  | (k1, v1) :: xs, (k2, v2) :: ys => k1 == k2 && jvalBeq v1 v2 && jvalKvsBeq xs ys
  | _, _ => false

end

mutual

theorem jvalBeq_eq : ∀ a b : JVal, jvalBeq a b = true → a = b
  | .null, .null, _ => rfl
  | .bool a, .bool b, h => by
    simp only [jvalBeq, beq_iff_eq] at h; exact h ▸ rfl
  | .str a, .str b, h => by
    simp only [jvalBeq, beq_iff_eq] at h; exact h ▸ rfl
  | .num a, .num b, h => by
    simp only [jvalBeq, decide_eq_true_eq] at h; exact h ▸ rfl
  | .arr xs, .arr ys, h => by
    simp only [jvalBeq] at h
    exact congrArg JVal.arr (jvalListBeq_eq xs ys h)
  | .obj xs, .obj ys, h => by
    simp only [jvalBeq] at h
    exact congrArg JVal.obj (jvalKvsBeq_eq xs ys h)

theorem jvalListBeq_eq : ∀ xs ys : List JVal, jvalListBeq xs ys = true → xs = ys
  | [], [], _ => rfl
  | x :: xs, y :: ys, h => by
    simp only [jvalListBeq, Bool.and_eq_true] at h
    exact congrArg₂ List.cons (jvalBeq_eq x y h.1) (jvalListBeq_eq xs ys h.2)

theorem jvalKvsBeq_eq :
    ∀ xs ys : List (String × JVal), jvalKvsBeq xs ys = true → xs = ys
  | [], [], _ => rfl
  | (k1, v1) :: xs, (k2, v2) :: ys, h => by
    simp only [jvalKvsBeq, Bool.and_eq_true, beq_iff_eq] at h
    have h1 : (k1, v1) = (k2, v2) := by
      rw [h.1.1, jvalBeq_eq v1 v2 h.1.2]
    exact congrArg₂ List.cons h1 (jvalKvsBeq_eq xs ys h.2)

end

mutual

theorem jvalBeq_refl : ∀ a : JVal, jvalBeq a a = true
  | .null => rfl
  | .bool a => by simp [jvalBeq]
  | .str a => by simp [jvalBeq]
  | .num a => by simp [jvalBeq]
  | .arr xs => by simp only [jvalBeq]; exact jvalListBeq_refl xs
  | .obj xs => by simp only [jvalBeq]; exact jvalKvsBeq_refl xs

theorem jvalListBeq_refl : ∀ xs : List JVal, jvalListBeq xs xs = true
  | [] => rfl
  | x :: xs => by
    simp only [jvalListBeq, Bool.and_eq_true]
    exact ⟨jvalBeq_refl x, jvalListBeq_refl xs⟩

theorem jvalKvsBeq_refl : ∀ xs : List (String × JVal), jvalKvsBeq xs xs = true
  | [] => rfl
  | (k, v) :: xs => by
    simp only [jvalKvsBeq, Bool.and_eq_true, beq_self_eq_true]
    exact ⟨⟨trivial, jvalBeq_refl v⟩, jvalKvsBeq_refl xs⟩

end

instance : DecidableEq JVal := fun a b =>
  decidable_of_iff (jvalBeq a b = true)
    ⟨jvalBeq_eq a b, fun h => h ▸ jvalBeq_refl a⟩

/-- Python truthiness (`bool(x)`). -/
def pyTruthy : JVal → Bool
  | .null => false
  | .bool b => b
  | .str s => decide (s ≠ "")
  | .num d => decide (d.m ≠ 0)
  | .arr xs => decide (xs ≠ [])
  | .obj kvs => decide (kvs ≠ [])

/-- Python `x or y`: the first operand when truthy, otherwise the second. -/
def pyOr (a b : JVal) : JVal := if pyTruthy a then a else b

/-- Python `str(x)`.  The `repr` of lists and dictionaries is not needed on
any verified path and is abbreviated. -/
def pyStr : JVal → String
  | .null => "None"
  | .bool true => "True"
  | .bool false => "False"
  | .str s => s
  | .num d => decToStr d
  | .arr _ => "[...]"
  | .obj _ => "{...}"

/-- Python whitespace, as stripped by `str.strip()`. -/
def isPySpace (c : Char) : Bool :=
  c = ' ' ∨ c = '\t' ∨ c = '\n' ∨ c = '\r' ∨ c = '\x0b' ∨ c = '\x0c'

/-- Python `str.strip()`. -/
def pyStrip (s : String) : String :=
  String.mk (((s.toList.dropWhile isPySpace).reverse.dropWhile isPySpace).reverse)

/-- Python `str.upper()` on the ASCII alphabet (the airline / airport codes
of the adapter); full Unicode case mapping is not modelled. -/
def pyUpper (s : String) : String := String.mk (s.toList.map Char.toUpper)

/-- Python `str.lower()` on the ASCII alphabet. -/
def pyLower (s : String) : String := String.mk (s.toList.map Char.toLower)

/-- Whether `pat` is a prefix of `l`. -/
def isPrefixList : List Char → List Char → Bool
  | [], _ => true
  | _ :: _, [] => false
  | p :: ps, c :: cs => p = c && isPrefixList ps cs

/-- Python `str.replace` (all non-overlapping occurrences, left to right) on
character lists, driven by a fuel bounded by the input length. -/
def replaceCore (pat rep : List Char) : Nat → List Char → List Char
  | 0, l => l
  | _, [] => []
  | fuel + 1, c :: rest =>
    if isPrefixList pat (c :: rest) ∧ pat ≠ [] then
      rep ++ replaceCore pat rep fuel ((c :: rest).drop pat.length)
    else c :: replaceCore pat rep fuel rest

/-- Python `str.replace` (never called with an empty pattern here). -/
def replaceStr (s pat rep : String) : String :=
  String.mk (replaceCore pat.toList rep.toList s.toList.length s.toList)

/-- Python `sep.join(parts)`. -/
def joinSep (sep : String) : List String → String
  | [] => ""
  | [p] => p
  | p :: rest => p ++ sep ++ joinSep sep rest

/-- Python `s[:n]`. -/
def strTake (s : String) (n : Nat) : String := String.mk (s.toList.take n)

/-- Whether `pat` occurs inside `l` (Python `pat in s`). -/
def containsSub (pat : List Char) : List Char → Bool
  | [] => pat.isEmpty
  | c :: rest => isPrefixList pat (c :: rest) || containsSub pat rest

/-- Split at the first occurrence of `sep` (Python `s.split(sep, 1)` when it
finds the separator). -/
def splitFirstChar (sep : Char) : List Char → Option (List Char × List Char)
  | [] => none
  | c :: rest =>
    if c = sep then some ([], rest)
    else
      match splitFirstChar sep rest with
      | some (a, b) => some (c :: a, b)
      | none => none

/-- Split at every occurrence of the separator character. -/
def splitAllChar (sep : Char) (cs : List Char) : List (List Char) :=
  match cs with
  | [] => [[]]
  | c :: rest =>
    let parts := splitAllChar sep rest
    if c = sep then [] :: parts
    else
      match parts with
      | p :: ps => (c :: p) :: ps
      | [] => [[c]]

instance : DecidableEq (Except Unit Bool) := fun a b =>
  match a, b with
  | .ok x, .ok y => if h : x = y then isTrue (by rw [h]) else isFalse (by simp [h])
  | .error x, .error y => isTrue (by cases x; cases y; rfl)
  | .ok _, .error _ => isFalse (by simp)
  | .error _, .ok _ => isFalse (by simp)

/-- Python `d.get(k)` on a dictionary: `JVal.null` models the `None` result
for a missing key.  Calling `.get` on a non-dictionary raises in Python; the
embedded callers only reach this with dictionaries and the model returns
`null` on the degenerate shapes. -/
def jget (v : JVal) (k : String) : JVal :=
  match v with
  | .obj kvs => (kvs.lookup k).getD .null
  | _ => .null

/-- Python `d.get(k, default)`: the default is used only when the key is
missing (a stored `None` is returned as such). -/
def jgetD (v : JVal) (k : String) (dflt : JVal) : JVal :=
  match v with
  | .obj kvs => (kvs.lookup k).getD dflt
  | _ => dflt

/-- Replace the binding of `k` in place, or append it: Python `d[k] = x`. -/
def setKey (kvs : List (String × JVal)) (k : String) (x : JVal) :
    List (String × JVal) :=
  match kvs with
  | [] => [(k, x)]
  | (k0, v0) :: rest =>
    if k0 = k then (k0, x) :: rest else (k0, v0) :: setKey rest k x

/-- Python `d[k] = x` on a dictionary value (assignment on a non-dictionary
raises in Python and leaves the value unchanged in the model; the embedded
callers only assign into dictionaries). -/
def jset (v : JVal) (k : String) (x : JVal) : JVal :=
  match v with
  | .obj kvs => .obj (setKey kvs k x)
  | other => other

/-- `if not isinstance(v, list): v = [v]`, as the normalizer applies it. -/
def asPyList (v : JVal) : List JVal :=
  match v with
  | .arr xs => xs
  | x => [x]

/-- `_as_list` of `src/services/gateway/routers/flights.py`: `None` becomes
`[]`, a list stays, anything else is wrapped. -/
def asList : JVal → List JVal
  | .null => []
  | .arr xs => xs
  | x => [x]

/-- One step of a `_safe_get` path: a dictionary key or a list index. -/
inductive PathElem : Type where
  | key (k : String) : PathElem
  | idx (i : Nat) : PathElem

/-- `_safe_get` of `src/services/flights/ota/services/normalize.py`: walk the
path, returning the default as soon as a step raises or produces `None`. -/
def safeGet (v : JVal) (path : List PathElem) (dflt : JVal) : JVal :=
  match path with
  | [] => v
  | .key k :: rest =>
    match v with
    | .obj kvs =>
      match kvs.lookup k with
      | none => dflt
      | some x => if x = .null then dflt else safeGet x rest dflt
    | _ => dflt
  | .idx i :: rest =>
    match v with
    | .arr xs =>
      match xs.get? i with
      | none => dflt
      | some x => if x = .null then dflt else safeGet x rest dflt
    | _ => dflt

/-- An offset-aware datetime as produced by `datetime.strptime` with `%z`:
calendar fields plus a UTC offset in minutes. -/
structure PyDateTime where
  year : Nat
  month : Nat
  day : Nat
  hour : Nat
  minute : Nat
  second : Nat
  usec : Nat
  offMinutes : Int
deriving DecidableEq

/-- Leap-year rule of the proleptic Gregorian calendar. -/
def isLeap (y : Nat) : Bool :=
  (y % 4 = 0 ∧ y % 100 ≠ 0) ∨ y % 400 = 0

/-- Days in a month, as `datetime` validates them. -/
def daysInMonth (y m : Nat) : Nat :=
  if m = 2 then (if isLeap y then 29 else 28)
  else if m = 4 ∨ m = 6 ∨ m = 9 ∨ m = 11 then 30
  else 31

/-- Days since 1970-01-01 of a Gregorian date (civil-from-days inverse,
standard era decomposition). -/
def daysFromCivil (y : Int) (m d : Nat) : Int :=
  let yAdj : Int := if m ≤ 2 then y - 1 else y
  let era : Int := (if 0 ≤ yAdj then yAdj else yAdj - 399) / 400
  let yoe : Int := yAdj - era * 400
  let mp : Int := (Int.ofNat m + 9) % 12
  let doy : Int := (153 * mp + 2) / 5 + Int.ofNat d - 1
  let doe : Int := yoe * 365 + yoe / 4 - yoe / 100 + doy
  era * 146097 + doe - 719468

/-- Microseconds since the epoch of an aware datetime (offset subtracted). -/
def toEpochUsec (t : PyDateTime) : Int :=
  ((daysFromCivil (Int.ofNat t.year) t.month t.day) * 86400
      + Int.ofNat (t.hour * 3600 + t.minute * 60 + t.second)
      - t.offMinutes * 60) * 1000000
    + Int.ofNat t.usec

/-- Exactly `n` decimal digits. -/
def takeDigitsExact : Nat → List Char → Option (Nat × List Char)
  | 0, cs => some (0, cs)
  | _ + 1, [] => none
  | n + 1, c :: cs =>
    if c.isDigit then
      match takeDigitsExact n cs with
      | some (v, rest) => some ((c.toNat - 48) * 10 ^ n + v, rest)
      | none => none
    else none

/-- One or two decimal digits, maximal munch (the `strptime` behaviour for
`%m`, `%d`, `%H`, `%M`, `%S` followed by a non-digit separator). -/
def takeDigits1or2 : List Char → Option (Nat × List Char)
  | [] => none
  | c :: cs =>
    if c.isDigit then
      match cs with
      | d :: rest =>
        if d.isDigit then some ((c.toNat - 48) * 10 + (d.toNat - 48), rest)
        else some (c.toNat - 48, cs)
      | [] => some (c.toNat - 48, [])
    else none

/-- A required literal character. -/
def expectChar (c : Char) : List Char → Option (List Char)
  | c0 :: cs => if c0 = c then some cs else none
  | [] => none

/-- `strptime` `%z` on the shapes the upstream produces: `Z`, `±HHMM` or
`±HH:MM`, minutes `00`–`59`, total magnitude below 24 hours (larger offsets
make `timezone()` raise, failing the parse).  The rare seconds-bearing form
is not modelled. -/
def parseTzOff : List Char → Option (Int × List Char)
  | [] => none
  | c :: cs =>
    if c = 'Z' then some (0, cs)
    else if c = '+' ∨ c = '-' then
      match takeDigitsExact 2 cs with
      | none => none
      | some (hh, r1) =>
        let r2 := match r1 with
          | ':' :: t => t
          | t => t
        match takeDigitsExact 2 r2 with
        | none => none
        | some (mm, rest) =>
          if mm ≤ 59 ∧ hh * 60 + mm < 1440 then
            some ((if c = '-' then -1 else 1) * Int.ofNat (hh * 60 + mm), rest)
          else none
    else none

/-- Up to six fraction digits of `%f`, scaled to microseconds. -/
def parseFrac (cs : List Char) : Option (Nat × List Char) :=
  let (ds, rest) := takeDigitRun cs
  if ds.length = 0 ∨ 6 < ds.length then none
  else some (digitsToNat ds * 10 ^ (6 - ds.length), rest)

/-- The date-time prefix `%Y-%m-%dT%H:%M:%S` shared by both formats of
`_parse_dt`, with the field validation `datetime` performs. -/
def parseDtPrefix (cs : List Char) : Option (Nat × Nat × Nat × Nat × Nat × Nat × List Char) := do
  let (y, r) ← takeDigitsExact 4 cs
  let r ← expectChar '-' r
  let (mo, r) ← takeDigits1or2 r
  let r ← expectChar '-' r
  let (d, r) ← takeDigits1or2 r
  let r ← expectChar 'T' r
  let (h, r) ← takeDigits1or2 r
  let r ← expectChar ':' r
  let (mi, r) ← takeDigits1or2 r
  let r ← expectChar ':' r
  let (s, r) ← takeDigits1or2 r
  if 1 ≤ mo ∧ mo ≤ 12 ∧ 1 ≤ d ∧ d ≤ daysInMonth y mo ∧ h ≤ 23 ∧ mi ≤ 59 ∧ s ≤ 59 then
    some (y, mo, d, h, mi, s, r)
  else none

/-- `_parse_dt` of `normalize.py`: try `%Y-%m-%dT%H:%M:%S.%f%z`, then
`%Y-%m-%dT%H:%M:%S%z`. -/
def parseDtStr (s : String) : Option PyDateTime :=
  match parseDtPrefix s.toList with
  | none => none
  | some (y, mo, d, h, mi, sec, r) =>
    match r with
    | '.' :: r1 =>
      match parseFrac r1 with
      | none => none
      | some (us, r2) =>
        match parseTzOff r2 with
        | some (off, []) => some ⟨y, mo, d, h, mi, sec, us, off⟩
        | _ => none
    | _ =>
      match parseTzOff r with
      | some (off, []) => some ⟨y, mo, d, h, mi, sec, 0, off⟩
      | _ => none

/-- `_parse_dt` as called on a JSON field: `None` and non-strings parse to
`None` (`if not dt or not isinstance(dt, str)`). -/
def parseDt (v : JVal) : Option PyDateTime :=
  match v with
  | .str s => if s = "" then none else parseDtStr s
  | _ => none

/-- `_fmt_hhmm` of `normalize.py`. -/
def fmtHHMM (v : JVal) : String :=
  match parseDt v with
  | none => ""
  | some t => pad2 t.hour ++ ":" ++ pad2 t.minute

/-- `_duration_minutes` of `normalize.py`: whole minutes between the two
instants (floor), clamped to at least zero; `0` when either side fails to
parse. -/
def durationMinutes (depDt arrDt : JVal) : Int :=
  match parseDt depDt, parseDt arrDt with
  | some d0, some d1 => max 0 (Int.fdiv (toEpochUsec d1 - toEpochUsec d0) 60000000)
  | _, _ => 0

/-- `_fmt_duration` of `normalize.py`. -/
def fmtDuration (mins : Int) : String :=
  if mins ≤ 0 then ""
  else
    let h := mins.toNat / 60
    let m := mins.toNat % 60
    if h ≠ 0 ∧ m ≠ 0 then toString h ++ "h " ++ toString m ++ "m"
    else if h ≠ 0 then toString h ++ "h"
    else toString m ++ "m"

/-- `_money_amount` of `normalize.py`: `float(x)` with `0.0` on failure. -/
def moneyAmount (v : JVal) : Dec :=
  match v with
  | .num d => d
  | .bool b => ⟨if b then 1 else 0, 0⟩
  | .str s => (parseFloatStr s).getD ⟨0, 0⟩
  | _ => ⟨0, 0⟩

/-- Per-segment normalization of `normalize_priced_itineraries`
(`src/services/flights/ota/services/normalize.py`, the body of the
`for s in segs` loop). -/
def normalizeSegment (s : JVal) : JVal :=
  let dep := pyOr (safeGet s [.key "departureAirport", .key "locationCode"] (.str "")) (.str "")
  let arr := pyOr (safeGet s [.key "arrivalAirport", .key "locationCode"] (.str "")) (.str "")
  let depDt := pyOr (jget s "departureDateTime") (.str "")
  let arrDt := pyOr (jget s "arrivalDateTime") (.str "")
  let airline := pyOr (pyOr (safeGet s [.key "operatingAirline", .key "code"] (.str ""))
    (safeGet s [.key "marketingAirline", .key "code"] (.str ""))) (.str "")
  let airlineName := pyOr (safeGet s [.key "operatingAirline", .key "companyShortName"] (.str "")) (.str "")
  let flightNo := pyOr (jget s "flightNumber") (.str "")
  let resClass := pyOr (jget s "resBookDesigCode") (.str "")
  let fareBasis := pyOr (jget s "fareBasisCode") (.str "")
  let equip :=
    match jget s "equipment" with
    | .arr (e0 :: _) => pyOr (jget (pyOr e0 (.obj [])) "airEquipType") (.str "")
    | .arr [] => .str ""
    | .obj kvs => pyOr (jget (.obj kvs) "airEquipType") (.str "")
    | _ => .str ""
  let extAny := pyOr (safeGet s [.key "tpaextensions", .key "any", .idx 0] (.obj [])) (.obj [])
  let baggage := pyOr (jget extAny "freeBaggage") (.str "")
  let durationRaw := pyOr (jget extAny "duration") (.str "")
  let aircraftName := pyOr (jget extAny "aircraftName") (.str "")
  .obj [("dep", dep), ("arr", arr), ("dep_dt", depDt), ("arr_dt", arrDt),
    ("airline", airline), ("airline_name", airlineName), ("flight", flightNo),
    ("class", resClass), ("fare_basis", fareBasis), ("equipment", equip),
    ("aircraft", aircraftName), ("baggage", baggage), ("duration_raw", durationRaw)]

/-- The segment list of a priced itinerary, as the normalizer extracts it:
first directional option, `flightSegment`, wrapped when not a list. -/
def segsOfPi (pi : JVal) : List JVal :=
  let odo := pyOr (safeGet pi
    [.key "airItinerary", .key "originDestinationOptions", .key "originDestinationOption", .idx 0]
    (.obj [])) (.obj [])
  let segs := pyOr (safeGet odo [.key "flightSegment"] (.arr [])) (.arr [])
  asPyList segs

/-- The number display of the normalizer: grouped integer when within `1e-9`
of an integer, else grouped with two decimals. -/
def totalAmountStr (amount : Dec) : String :=
  if decNearRound amount then groupInt (decRound amount) else fmt2dp amount

/-- One kept itinerary of `normalize_priced_itineraries` (the body after the
empty-segment `continue`). -/
def itinBody (idx : Nat) (pi : JVal) : JVal :=
  let segmentsNorm := (segsOfPi pi).map normalizeSegment
  let first := segmentsNorm.headD (.obj [])
  let last := segmentsNorm.getLastD (.obj [])
  let totalMins := durationMinutes (jget first "dep_dt") (jget last "arr_dt")
  let stops := segmentsNorm.length - 1
  let stopsLabel :=
    if stops = 0 then "Non-stop"
    else if stops = 1 then "1 stop" else toString stops ++ " stops"
  let fare0 := pyOr (safeGet pi [.key "airItineraryPricingInfo", .key "itinTotalFare", .idx 0] (.obj [])) (.obj [])
  let totalFare := pyOr (jget fare0 "totalFare") (.obj [])
  let currency :=
    match totalFare with
    | .obj _ => pyOr (jget totalFare "currencyCode") (.str "IQD")
    | _ => .str "IQD"
  let amount :=
    match totalFare with
    | .obj _ => moneyAmount (jget totalFare "amount")
    | _ => moneyAmount (.num ⟨0, 1⟩)
  let tv := pyOr (safeGet pi [.key "ticketingInfo", .key "ticketingVendor"] (.obj [])) (.obj [])
  let ticketing := JVal.obj [("companyShortName", jget tv "companyShortName"),
    ("code", jget tv "code"), ("codeContext", jget tv "codeContext")]
  .obj [
    ("sequenceNumber", pyOr (jget pi "sequenceNumber") (.num ⟨Int.ofNat idx, 0⟩)),
    ("segments", .arr segmentsNorm),
    ("summary", .obj [
      ("depart_time", .str (fmtHHMM (jget first "dep_dt"))),
      ("arrive_time", .str (fmtHHMM (jget last "arr_dt"))),
      ("duration_mins", .num ⟨totalMins, 0⟩),
      ("duration", .str (fmtDuration totalMins)),
      ("stops", .num ⟨Int.ofNat stops, 0⟩),
      ("stops_label", .str stopsLabel)]),
    ("total_currency", currency),
    ("total_amount", .str (totalAmountStr amount)),
    ("amount_raw", .num amount),
    ("ticketing", ticketing)]

/-- The `for idx, pi in enumerate(pis, start=1)` loop of
`normalize_priced_itineraries`: skip itineraries whose segment list is empty,
keep the rest in order. -/
def normLoop : Nat → List JVal → List JVal
  | _, [] => []
  | idx, pi :: rest =>
    if (segsOfPi pi).isEmpty then normLoop (idx + 1) rest
    else itinBody idx pi :: normLoop (idx + 1) rest

/-- Result shape of the normalizer (`{"meta": ..., "results_outbound": ...}`). -/
structure NormalizeResult where
  meta : JVal
  resultsOutbound : List JVal
deriving DecidableEq

/-- The priced-itinerary list the normalizer iterates. -/
def pisOf (resp : JVal) : List JVal :=
  asPyList (pyOr (safeGet resp [.key "pricedItineraries", .key "pricedItinerary"] (.arr [])) (.arr []))

/-- `normalize_priced_itineraries` of
`src/services/flights/ota/services/normalize.py`. -/
def normalizePricedItineraries (resp : JVal) : NormalizeResult :=
  let echo := match resp with | .obj _ => jget resp "echoToken" | _ => .null
  let target := match resp with | .obj _ => jget resp "targetName" | _ => .null
  { meta := .obj [("echoToken", echo), ("targetName", target)],
    resultsOutbound := normLoop 1 (pisOf resp) }

/-- `_seg_sig` of `src/services/gateway/routers/flights.py` (availability):
signature of a raw flight segment. -/
def segSig (seg : JVal) : String :=
  let dep := pyUpper (pyStr (pyOr (jget (pyOr (jget seg "departureAirport") (.obj [])) "locationCode") (.str "")))
  let arr := pyUpper (pyStr (pyOr (jget (pyOr (jget seg "arrivalAirport") (.obj [])) "locationCode") (.str "")))
  let depDt := pyStrip (pyStr (pyOr (jget seg "departureDateTime") (.str "")))
  let arrDt := pyStrip (pyStr (pyOr (jget seg "arrivalDateTime") (.str "")))
  let op := pyOr (jget seg "operatingAirline") (.obj [])
  let mk := pyOr (jget seg "marketingAirline") (.obj [])
  let airline := pyUpper (pyStr (pyOr (pyOr (jget op "code") (jget mk "code")) (.str "")))
  let flight := pyStrip (pyStr (pyOr (jget seg "flightNumber") (.str "")))
  dep ++ "|" ++ arr ++ "|" ++ depDt ++ "|" ++ arrDt ++ "|" ++ airline ++ "|" ++ flight

/-- `_norm_sig_from_result` of `src/services/gateway/routers/flights.py`
(availability): signature of a normalized result, from its first segment
(`{}` when the segment list is empty or not a list — the guarded indexing
raises and is caught). -/
def normSigFromResult (r : JVal) : String :=
  let segs := pyOr (jget r "segments") (.arr [])
  let s0 := match segs with
    | .arr (x :: _) => pyOr x (.obj [])
    | _ => .obj []
  let dep := pyUpper (pyStr (pyOr (jget s0 "dep") (.str "")))
  let arr := pyUpper (pyStr (pyOr (jget s0 "arr") (.str "")))
  let depDt := pyStrip (pyStr (pyOr (jget s0 "dep_dt") (.str "")))
  let arrDt := pyStrip (pyStr (pyOr (jget s0 "arr_dt") (.str "")))
  let airline := pyUpper (pyStr (pyOr (jget s0 "airline") (.str "")))
  let flight := pyStrip (pyStr (pyOr (jget s0 "flight") (.str "")))
  dep ++ "|" ++ arr ++ "|" ++ depDt ++ "|" ++ arrDt ++ "|" ++ airline ++ "|" ++ flight

/-- `_fmt_money` of `src/services/gateway/routers/flights.py`: formatted
display string plus the raw float, or the raw string when not numeric. -/
def fmtMoney (v : JVal) : String × Option Dec :=
  match v with
  | .num d => (if decNearRound d then groupInt (decRound d) else fmt2dp d, some d)
  | .bool b => let d : Dec := ⟨if b then 1 else 0, 0⟩
               (if decNearRound d then groupInt (decRound d) else fmt2dp d, some d)
  | .str s =>
    match parseFloatStr s with
    | some d => (if decNearRound d then groupInt (decRound d) else fmt2dp d, some d)
    | none => (s, none)
  | .null => ("", none)
  | other => (pyStr other, none)

/-- A roundtrip price-map entry
(`{"currency": ..., "amount": ..., "amount_raw": ...}` built by
`_roundtrip_price_map`). -/
structure RtInfo where
  currency : JVal
  amount : JVal
  amountRaw : JVal
deriving DecidableEq

/-- The body of the roundtrip enrichment loop of `availability`
(`src/services/gateway/routers/flights.py` lines 274-280): attach the three
roundtrip fields when the signature is in the price map. -/
def applyRoundtripInfo (rtMap : List (String × RtInfo)) (rr : JVal) : JVal :=
  match rtMap.lookup (normSigFromResult rr) with
  | none => rr
  | some info =>
    jset (jset (jset rr "roundtrip_total_currency" info.currency)
      "roundtrip_total_amount" info.amount) "roundtrip_amount_raw" info.amountRaw

/-- The roundtrip enrichment of `availability`: skipped entirely when the
price map is empty, otherwise applied to every return result. -/
def mergeRoundtrip (rtMap : List (String × RtInfo)) (resultsReturn : List JVal) : List JVal :=
  if rtMap.isEmpty then resultsReturn
  else resultsReturn.map (applyRoundtripInfo rtMap)

/-- Python `a or b` on strings. -/
def pyOrStr (a b : String) : String := if a = "" then b else a

/-- Python `opt or b` on an optional string (`None` and `""` both fall
through). -/
def optStrOr (v : Option String) (b : String) : String :=
  match v with
  | some s => if s = "" then b else s
  | none => b

/-- The `Passenger` request model of `src/services/gateway/routers/flights.py`
(`title` is the `NamePrefix` field of the source). -/
structure Passenger where
  firstName : String
  lastName : String
  birthDate : String
  paxType : String := "ADT"
  title : String := "MR"
  gender : String := "M"
  passport : Option String := none
  issueCountry : Option String := none
  nationality : Option String := none
  expireDate : Option String := none
  docType : Option String := none
deriving DecidableEq

/-- The `Contact` request model. -/
structure Contact where
  phone : Option String := none
  email : Option String := none
  country : Option String := none
  city : Option String := none
deriving DecidableEq

/-- The apostrophe character, kept symbolic. -/
def aposStr : String := String.singleton (Char.ofNat 39)

/-- `_norm` of the `book` endpoint: `None` to `""`, strip carriage returns,
newlines to spaces, trim. -/
def normJ (v : JVal) : String :=
  match v with
  | .null => ""
  | _ => pyStrip (replaceStr (replaceStr (pyStr v) "\r" "") "\n" " ")

/-- `_esc_attr`: XML attribute escaping. -/
def escAttrS (s : String) : String :=
  replaceStr (replaceStr (replaceStr (replaceStr (replaceStr
    (pyStrip (replaceStr (replaceStr s "\r" "") "\n" " "))
    "&" "&amp;") "\"" "&quot;") "<" "&lt;") ">" "&gt;") aposStr "&apos;"

/-- `_esc_attr` on a JSON value. -/
def escAttr (v : JVal) : String :=
  match v with
  | .null => ""
  | _ => escAttrS (pyStr v)

/-- `_esc_text`: XML element-content escaping. -/
def escTextS (s : String) : String :=
  replaceStr (replaceStr (replaceStr
    (pyStrip (replaceStr (replaceStr s "\r" "") "\n" " "))
    "&" "&amp;") "<" "&lt;") ">" "&gt;"

/-- `_esc_text` on a JSON value. -/
def escText (v : JVal) : String :=
  match v with
  | .null => ""
  | _ => escTextS (pyStr v)

/-- `_pick_equipment` of the `book` endpoint. -/
def pickEquipment (seg : JVal) : String :=
  match jget seg "equipment" with
  | .arr (e0 :: _) => pyStr (pyOr (jget (pyOr e0 (.obj [])) "airEquipType") (.str ""))
  | .arr [] => ""
  | .obj kvs => pyStr (pyOr (jget (.obj kvs) "airEquipType") (.str ""))
  | _ => ""

/-- `_pick_tpa_any` of the `book` endpoint. -/
def pickTpaAny (seg : JVal) : JVal :=
  let tpa := pyOr (pyOr (jget seg "tpaextensions") (jget seg "tpaExtensions")) (.obj [])
  let any0 := pyOr (jget tpa "any") (.arr [])
  match any0 with
  | .arr (x :: _) => pyOr x (.obj [])
  | .arr [] => .obj []
  | .obj kvs => .obj kvs
  | _ => .obj []

/-- `_as_dict` inside `_ticketing_vendor`. -/
def asDictJ (v : JVal) : JVal :=
  match v with
  | .obj _ => v
  | _ => .obj []

/-- The extracted ticketing-vendor triple. -/
structure TicketingVendorInfo where
  companyShortName : JVal
  code : JVal
  codeContext : JVal
deriving DecidableEq

/-- Read a vendor triple out of one candidate dictionary, with both case
variants per field. -/
def vendorFieldsOf (v : JVal) : TicketingVendorInfo :=
  { companyShortName := pyOr (jget v "companyShortName") (pyOr (jget v "CompanyShortName") (.str "")),
    code := pyOr (jget v "code") (pyOr (jget v "Code") (.str "")),
    codeContext := pyOr (jget v "codeContext") (pyOr (jget v "CodeContext") (.str "")) }

/-- `_ticketing_vendor` of the `book` endpoint: normalized `ticketing` block,
then direct `ticketingVendor` / `TicketingVendor` dictionaries, then the
nested `ticketingInfo` / `TicketingInfo` shapes. -/
def ticketingVendor (pi : JVal) : TicketingVendorInfo :=
  let tNorm := asDictJ (jget pi "ticketing")
  if pyTruthy tNorm then vendorFieldsOf tNorm
  else
    let v1 := asDictJ (jget pi "ticketingVendor")
    if pyTruthy v1 then vendorFieldsOf v1
    else
      let v2 := asDictJ (jget pi "TicketingVendor")
      if pyTruthy v2 then vendorFieldsOf v2
      else
        let ti := pyOr (asDictJ (jget pi "ticketingInfo")) (asDictJ (jget pi "TicketingInfo"))
        let tv := pyOr (asDictJ (jget ti "ticketingVendor")) (asDictJ (jget ti "TicketingVendor"))
        vendorFieldsOf tv

/-- The vendor guard of `_build_airbook_xml`:
`tv.get("companyShortName") and tv.get("code") and tv.get("codeContext")`. -/
def vendorComplete (tv : TicketingVendorInfo) : Bool :=
  pyTruthy tv.companyShortName && pyTruthy tv.code && pyTruthy tv.codeContext

/-- The pricing sextuple `_pricing` extracts. -/
structure PricingInfo where
  baseCur : String
  baseDec : String
  baseAmt : String
  totCur : String
  totDec : String
  totAmt : String
deriving DecidableEq

/-- `_pricing` of the `book` endpoint: normalized-itinerary branch
(`total_currency` / `amount_raw` / `total_amount` present and no
`airItineraryPricingInfo`), else the raw priced-itinerary fare blocks with
the base-fare fallback to the total fare. -/
def pricingOf (pi : JVal) : PricingInfo :=
  let isNormBranch :=
    (match pi with | .obj _ => true | _ => false)
      && pyTruthy (pyOr (pyOr (jget pi "total_currency") (jget pi "amount_raw")) (jget pi "total_amount"))
      && ! pyTruthy (jget pi "airItineraryPricingInfo")
  if isNormBranch then
    let cur := pyStr (pyOr (jget pi "total_currency") (.str "IQD"))
    let amtV : JVal :=
      match jget pi "amount_raw" with
      | .null =>
        let s := pyStrip (replaceStr (pyStr (pyOr (jget pi "total_amount") (.str ""))) "," "")
        match (if s = "" then some (⟨0, 0⟩ : Dec) else parseFloatStr s) with
        | some d => .num d
        | none => .num ⟨0, 0⟩
      | v => v
    let amtStr :=
      match (match amtV with
        | .num d => some d
        | .bool b => some (⟨if b then 1 else 0, 0⟩ : Dec)
        | .str s => parseFloatStr s
        | _ => none) with
      | some d => if decIsInt d then toString (decTruncInt d) else decToStr d
      | none => pyStr (pyOr amtV (.str ""))
    { baseCur := cur, baseDec := "2", baseAmt := amtStr,
      totCur := cur, totDec := "2", totAmt := amtStr }
  else
    let itinTotal := asList (jget (pyOr (jget pi "airItineraryPricingInfo") (.obj [])) "itinTotalFare")
    let it0 := itinTotal.headD (.obj [])
    let base0 := asDictJ (pyOr (jget it0 "baseFare") (.obj []))
    let total := asDictJ (pyOr (jget it0 "totalFare") (.obj []))
    let base := if ¬ pyTruthy base0 ∧ pyTruthy total then total else base0
    { baseCur := pyStr (pyOr (jget base "currencyCode") (pyOr (jget total "currencyCode") (.str "IQD"))),
      baseDec := pyStr (pyOr (jget base "decimalPlaces") (pyOr (jget total "decimalPlaces") (.str "2"))),
      baseAmt := pyStr (pyOr (jget base "amount") (.str "")),
      totCur := pyStr (pyOr (jget total "currencyCode") (pyOr (jget base "currencyCode") (.str "IQD"))),
      totDec := pyStr (pyOr (jget total "decimalPlaces") (pyOr (jget base "decimalPlaces") (.str "2"))),
      totAmt := pyStr (pyOr (jget total "amount") (.str "")) }

/-- Convert one normalized segment to the WINGS-like dictionary
(`_segments_from_pi`, case 2 loop body). -/
def normSegToWings (s : JVal) : JVal :=
  let dep := pyUpper (pyStr (pyOr (jget s "dep") (.str "")))
  let arr := pyUpper (pyStr (pyOr (jget s "arr") (.str "")))
  let depDt := pyOr (jget s "dep_dt") (.str "")
  let arrDt := pyOr (jget s "arr_dt") (.str "")
  let flt := pyOr (jget s "flight") (.str "")
  let airline := pyOr (jget s "airline") (.str "")
  let airlineName := pyOr (jget s "airline_name") (.str "")
  let equip := pyOr (jget s "equipment") (.str "")
  let baggage := pyOr (jget s "baggage") (.str "")
  let aircraft := pyOr (jget s "aircraft") (.str "")
  .obj [
    ("departureDateTime", depDt),
    ("arrivalDateTime", arrDt),
    ("flightNumber", flt),
    ("departureAirport", .obj [("locationCode", .str dep)]),
    ("arrivalAirport", .obj [("locationCode", .str arr)]),
    ("operatingAirline", .obj [("code", airline), ("companyShortName", airlineName)]),
    ("marketingAirline", .obj [("code", airline)]),
    ("equipment", if pyTruthy equip then .obj [("airEquipType", equip)] else .obj []),
    ("tpaextensions", .obj [("any", .arr [.obj [("freeBaggage", baggage), ("aircraftName", aircraft)]])])]

/-- Whether a value is a Python dictionary. -/
def isObj : JVal → Bool
  | .obj _ => true
  | _ => false

/-- `_segments_from_pi` of the `book` endpoint: raw WINGS path, its
capitalization variant, then the normalized flat `segments` list (the latter
only for leg index 0). -/
def segmentsFromPi (pi : JVal) (legIndex : Nat) : List JVal :=
  let odoList := asList (jget (pyOr
    (jget (pyOr (jget pi "airItinerary") (.obj [])) "originDestinationOptions") (.obj []))
    "originDestinationOption")
  if odoList ≠ [] ∧ legIndex < odoList.length then
    (asList (jget (pyOr (odoList.getD legIndex .null) (.obj [])) "flightSegment")).filter isObj
  else
    let odoList2 := asList (jget (pyOr
      (jget (pyOr (jget pi "AirItinerary") (.obj [])) "OriginDestinationOptions") (.obj []))
      "OriginDestinationOption")
    if odoList2 ≠ [] ∧ legIndex < odoList2.length then
      (asList (jget (pyOr (odoList2.getD legIndex .null) (.obj [])) "FlightSegment")).filter isObj
    else
      match jget pi "segments" with
      | .arr segsNorm =>
        if legIndex ≠ 0 then []
        else (segsNorm.filter isObj).map normSegToWings
      | _ => []

/-- One `<FlightSegment>` block of `_build_leg_xml` (`idx` is the 1-based
RPH). -/
def flightSegmentXml (idx : Nat) (seg : JVal) : String :=
  let depDt := pyOr (jget seg "departureDateTime") (.str "")
  let arrDt := pyOr (jget seg "arrivalDateTime") (.str "")
  let fltNo := pyOr (jget seg "flightNumber") (.str "")
  let depLc := pyUpper (pyStr (pyOr (jget (pyOr (jget seg "departureAirport") (.obj [])) "locationCode") (.str "")))
  let arrLc := pyUpper (pyStr (pyOr (jget (pyOr (jget seg "arrivalAirport") (.obj [])) "locationCode") (.str "")))
  let op := pyOr (jget seg "operatingAirline") (.obj [])
  let mk := pyOr (jget seg "marketingAirline") (.obj [])
  let opCode := pyUpper (pyStr (pyOr (pyOr (jget op "code") (jget mk "code")) (.str "IA")))
  let mkCode := pyUpper (pyStr (pyOr (jget mk "code") (.str opCode)))
  let opName := pyOr (jget op "companyShortName") (.str "Iraqi Airways")
  let eqType := pickEquipment seg
  let tpaAny := pickTpaAny seg
  let depFull := pyOr (jget tpaAny "departureAirport") (pyOr (jget tpaAny "DepartureAirport") (.str ""))
  let arrFull := pyOr (jget tpaAny "arrivalAirport") (pyOr (jget tpaAny "ArrivalAirport") (.str ""))
  let depCountry := pyOr (jget tpaAny "departureCountry") (.str "")
  let arrCountry := pyOr (jget tpaAny "arrivalCountry") (.str "")
  let depCity := pyOr (jget tpaAny "departureCity") (.str "")
  let arrCity := pyOr (jget tpaAny "arrivalCity") (.str "")
  let freeBag := pyOr (jget tpaAny "freeBaggage") (.str "")
  let aircraftName := pyOr (jget tpaAny "aircraftName") (.str "")
  let equipmentXml :=
    if eqType ≠ "" then "          <Equipment AirEquipType=\"" ++ escAttrS eqType ++ "\"/>\n" else ""
  "        <FlightSegment DepartureDateTime=\"" ++ escAttr depDt ++ "\"\n" ++
  "                       ArrivalDateTime=\"" ++ escAttr arrDt ++ "\"\n" ++
  "                       StopQuantity=\"0\"\n" ++
  "                       RPH=\"" ++ toString idx ++ "\"\n" ++
  "                       FlightNumber=\"" ++ escAttr fltNo ++ "\">\n" ++
  "          <DepartureAirport LocationCode=\"" ++ escAttrS depLc ++ "\"/>\n" ++
  "          <ArrivalAirport LocationCode=\"" ++ escAttrS arrLc ++ "\"/>\n" ++
  "          <OperatingAirline CompanyShortName=\"" ++ escAttr opName ++ "\" Code=\"" ++ escAttrS opCode ++ "\"/>\n" ++
  equipmentXml ++
  "          <TPA_Extensions>\n" ++
  "            <TPA_Extension>\n" ++
  "              <DepartureAirport>" ++ escText depFull ++ "</DepartureAirport>\n" ++
  "              <departureCountry>" ++ escText depCountry ++ "</departureCountry>\n" ++
  "              <departureCity>" ++ escText depCity ++ "</departureCity>\n" ++
  "              <arrivalCity>" ++ escText arrCity ++ "</arrivalCity>\n" ++
  "              <ArrivalAirport>" ++ escText arrFull ++ "</ArrivalAirport>\n" ++
  "              <arrivalCountry>" ++ escText arrCountry ++ "</arrivalCountry>\n" ++
  "              <freeBaggage>" ++ escText freeBag ++ "</freeBaggage>\n" ++
  "              <aircraftName>" ++ escText aircraftName ++ "</aircraftName>\n" ++
  "            </TPA_Extension>\n" ++
  "          </TPA_Extensions>\n" ++
  "          <MarketingAirline Code=\"" ++ escAttrS mkCode ++ "\"/>\n" ++
  "        </FlightSegment>"

/-- The enumerated segment loop of `_build_leg_xml`. -/
def legSegChunks : Nat → List JVal → List String
  | _, [] => []
  | idx, seg :: rest => flightSegmentXml idx seg :: legSegChunks (idx + 1) rest

/-- `_build_leg_xml` of the `book` endpoint: empty string when the leg has no
segments. -/
def buildLegXml (pi : JVal) (legIndex : Nat) : String :=
  let segs := segmentsFromPi pi legIndex
  if segs.isEmpty then ""
  else joinSep "\n" (legSegChunks 1 segs)

/-- The synthesized travel-document values of `_doc_for`. -/
structure PaxDoc where
  passport : String
  issue : String
  nation : String
  exp : String
  docType : String

/-- `_doc_for` of `_build_air_travelers`: deterministic placeholder values
when document fields are missing. -/
def docFor (i : Nat) (p : Passenger) (defaultIssue defaultNation : String) : PaxDoc :=
  { passport := optStrOr p.passport ("P" ++ String.mk (List.replicate 8 (digitChar ((i + 7) % 10)))),
    issue := pyUpper (strTake (optStrOr p.issueCountry defaultIssue) 2),
    nation := pyUpper (strTake (optStrOr p.nationality defaultNation) 2),
    exp := optStrOr p.expireDate "2030-01-01",
    docType := optStrOr p.docType "2" }

/-- One `<AirTraveler>` chunk of `_build_air_travelers` (contact lines only
on the first traveler). -/
def airTravelerChunk (i : Nat) (p : Passenger) (defaultPhone defaultEmail defaultIssue defaultNation : String) : String :=
  let doc := docFor i p defaultIssue defaultNation
  let telXml :=
    if i = 0 then "      <Telephone PhoneNumber=\"" ++ escAttrS defaultPhone ++ "\"/>\n" else ""
  let emailXml :=
    if i = 0 then "      <Email>" ++ escTextS defaultEmail ++ "</Email>\n" else ""
  "    <AirTraveler BirthDate=\"" ++ escAttrS p.birthDate ++ "\" PassengerTypeCode=\"" ++
    escAttrS p.paxType ++ "\" AccompaniedByInfantInd=\"false\" Gender=\"" ++
    escAttrS (pyOrStr p.gender "M") ++ "\">\n" ++
  "      <PersonName>\n" ++
  "        <NamePrefix>" ++
    escTextS (pyOrStr p.title (if pyUpper (pyOrStr p.gender "M") = "F" then "MS" else "MR")) ++
    "</NamePrefix>\n" ++
  "        <GivenName>" ++ escTextS p.firstName ++ "</GivenName>\n" ++
  "        <Surname>" ++ escTextS p.lastName ++ "</Surname>\n" ++
  "      </PersonName>\n" ++
  "\n" ++
  telXml ++ emailXml ++ "      <Document DocID=\"" ++ escAttrS doc.passport ++ "\"\n" ++
  "                DocType=\"" ++ escAttrS doc.docType ++ "\"\n" ++
  "                DocIssueCountry=\"" ++ escAttrS doc.issue ++ "\"\n" ++
  "                DocHolderNationality=\"" ++ escAttrS doc.nation ++ "\"\n" ++
  "                ExpireDate=\"" ++ escAttrS doc.exp ++ "\"/>\n" ++
  "    </AirTraveler>"

/-- The enumerated traveler loop of `_build_air_travelers`. -/
def travelerChunks : Nat → List Passenger → (dp de di dn : String) → List String
  | _, [], _, _, _, _ => []
  | i, p :: rest, dp, de, di, dn =>
    airTravelerChunk i p dp de di dn :: travelerChunks (i + 1) rest dp de di dn

/-- A contact field with its fallback (`contact.f if contact and contact.f
else default`). -/
def contactField (contact : Option Contact) (f : Contact → Option String) (dflt : String) : String :=
  match contact with
  | some c => optStrOr (f c) dflt
  | none => dflt

/-- `_build_air_travelers` of the `book` endpoint. -/
def buildAirTravelers (passengers : List Passenger) (contact : Option Contact) : String :=
  let defaultPhone := contactField contact Contact.phone "9647500000000"
  let defaultEmail := contactField contact Contact.email "dler.azeez@example.com"
  let defaultIssue := contactField contact Contact.country "IQ"
  joinSep "\n" (travelerChunks 0 passengers defaultPhone defaultEmail defaultIssue defaultIssue)

/-- The fallback passenger `_build_fulfillment` constructs when the list is
empty. -/
def fallbackPassenger : Passenger :=
  { firstName := "Test", lastName := "User", birthDate := "1990-01-01" }

/-- `_build_fulfillment` of the `book` endpoint. -/
def buildFulfillment (passengers : List Passenger) (contact : Option Contact) : String :=
  let p0 := passengers.headD fallbackPassenger
  let phone := contactField contact Contact.phone "9647500000000"
  let email := contactField contact Contact.email "dler.azeez@example.com"
  let country := contactField contact Contact.country "IQ"
  let city := contactField contact Contact.city "Erbil"
  let genderText := if pyUpper (pyOrStr p0.gender "M") = "F" then "Female" else "Male"
  let natNum :=
    match passengers with
    | [] => "P12345678"
    | q :: _ => optStrOr q.passport "P12345678"
  "  <Fulfillment>\n" ++
  "    <Name>\n" ++
  "      <GivenName>" ++ escTextS p0.firstName ++ "</GivenName>\n" ++
  "      <Surname>" ++ escTextS p0.lastName ++ "</Surname>\n" ++
  "      <TPA_Extensions>\n" ++
  "        <TPA_Extension>\n" ++
  "          <Username>" ++ escTextS email ++ "</Username>\n" ++
  "          <Country>" ++ escTextS country ++ "</Country>\n" ++
  "          <PersianLasttName>" ++ escTextS p0.lastName ++ "</PersianLasttName>\n" ++
  "          <Gender>" ++ escTextS genderText ++ "</Gender>\n" ++
  "          <City>" ++ escTextS city ++ "</City>\n" ++
  "          <PersianFirstName>" ++ escTextS p0.firstName ++ "</PersianFirstName>\n" ++
  "          <Mobile>" ++ escTextS phone ++ "</Mobile>\n" ++
  "          <Nationality>" ++ escTextS country ++ "</Nationality>\n" ++
  "          <NationalityNum>" ++ escTextS natNum ++ "</NationalityNum>\n" ++
  "        </TPA_Extension>\n" ++
  "      </TPA_Extensions>\n" ++
  "    </Name>\n" ++
  "  </Fulfillment>"

/-- `_build_airbook_xml` of the `book` endpoint: `Except.error` models the
`ValueError` raises (vendor missing, no outbound segments). -/
def buildAirbookXml (outboundPi : JVal) (returnPi : Option JVal)
    (passengers : List Passenger) (contact : Option Contact) (tripType : String) :
    Except String String :=
  let tv := ticketingVendor outboundPi
  if ¬ vendorComplete tv then
    .error "TicketingVendor not found. Cannot book without vendor."
  else
    let pr := pricingOf outboundPi
    let direction := if pyLower (pyOrStr tripType "oneway") ≠ "roundtrip" then "OneWay" else "Return"
    let outLeg := buildLegXml outboundPi 0
    if outLeg = "" then .error "No outbound segments found in itinerary."
    else
      let rtLeg :=
        if pyLower (pyOrStr tripType "") = "roundtrip" then
          match returnPi with
          | some rp => pyOrStr (buildLegXml rp 0) (buildLegXml rp 1)
          | none => ""
        else ""
      let travelerXml := buildAirTravelers passengers contact
      let fulfillmentXml := buildFulfillment passengers contact
      let baseAmt := pyOrStr pr.baseAmt (pyOrStr pr.totAmt "")
      let totAmt := pyOrStr pr.totAmt (pyOrStr pr.baseAmt "")
      let xml :=
        "<?xml version=\"1.0\" encoding=\"UTF-8\"?>\n" ++
        "<OTA_AirBookRQ>\n" ++
        "\n" ++
        "  <AirItinerary DirectionInd=\"" ++ escAttrS direction ++ "\">\n" ++
        "    <OriginDestinationOptions>\n" ++
        "      <OriginDestinationOption>\n" ++
        outLeg ++ "\n" ++
        "      </OriginDestinationOption>"
      let xml := xml ++
        (if rtLeg ≠ "" then
          "\n      <OriginDestinationOption>\n" ++ rtLeg ++ "\n      </OriginDestinationOption>"
        else "")
      let xml := xml ++
        "\n    </OriginDestinationOptions>\n" ++
        "  </AirItinerary>\n" ++
        "\n" ++
        "  <PriceInfo>\n" ++
        "    <ItinTotalFare>\n" ++
        "      <BaseFare CurrencyCode=\"" ++ escAttrS (pyOrStr pr.baseCur "IQD") ++
          "\" DecimalPlaces=\"" ++ escAttrS (pyOrStr pr.baseDec "2") ++
          "\" Amount=\"" ++ escAttrS baseAmt ++ "\"/>\n" ++
        "      <TotalFare CurrencyCode=\"" ++ escAttrS (pyOrStr pr.totCur "IQD") ++
          "\" DecimalPlaces=\"" ++ escAttrS (pyOrStr pr.totDec "2") ++
          "\" Amount=\"" ++ escAttrS totAmt ++ "\"/>\n" ++
        "    </ItinTotalFare>\n" ++
        "  </PriceInfo>\n" ++
        "\n" ++
        "  <TravelerInfo>\n" ++
        travelerXml ++ "\n" ++
        "  </TravelerInfo>\n" ++
        "\n" ++
        fulfillmentXml ++ "\n" ++
        "\n" ++
        "  <Ticketing>\n" ++
        "    <TicketingVendor CompanyShortName=\"" ++ escAttr tv.companyShortName ++
          "\" Code=\"" ++ escAttr tv.code ++ "\" CodeContext=\"" ++ escAttr tv.codeContext ++ "\"/>\n" ++
        "  </Ticketing>\n" ++
        "\n" ++
        "</OTA_AirBookRQ>\n"
      .ok xml

/-- Python `int(str)`: surrounding whitespace, an optional sign, then ASCII
decimal digits.  Unicode decimal digits other than ASCII are not modelled
except that `str.isdigit`-positive characters such as superscript digits are
rejected here, reproducing the `int("²")` failure. -/
def pyIntOfStr (s : String) : Option Int :=
  let cs := ((s.toList.dropWhile isPySpace).reverse.dropWhile isPySpace).reverse
  let (sign, ds) := match cs with
    | '-' :: r => (true, r)
    | '+' :: r => (false, r)
    | r => (false, r)
  if ds ≠ [] ∧ ds.all (fun c => c.isDigit) then
    some ((if sign then -1 else 1) * (digitsToNat ds : Int))
  else none

/-- Python `str.isdigit`: ASCII digits plus the superscript digits, which are
`isdigit`-positive yet rejected by `int()`. -/
def pyIsdigitStr (s : String) : Bool :=
  s ≠ "" && s.toList.all (fun c => c.isDigit ∨ c = '¹' ∨ c = '²' ∨ c = '³')

/-- `isinstance(x, int)` (Python `bool` is a subclass of `int`; floats are
not `int`s). -/
def isPyInt : JVal → Bool
  | .num d => d.e = 0
  | .bool _ => true
  | _ => false

/-- `int(x)` inside the weekday filter of `_ticketing_schedule_allows`; an
`Except.error` models the `ValueError` / `TypeError` escaping to the outer
handler. -/
def pyIntOfJVal : JVal → Except Unit Int
  | .num d => if d.e = 0 then .ok d.m else .ok (decTruncInt d)
  | .bool b => .ok (if b then 1 else 0)
  | .str s =>
    match pyIntOfStr s with
    | some n => .ok n
    | none => .error ()
  | _ => .error ()

/-- `json.loads` as used on a string-encoded `days` field: a flat JSON array
of integers, or a bare integer (other JSON shapes are not produced by the
schedule editor and are not modelled; a parse failure is `none`). -/
def parseIntToken (cs : List Char) : Option Int :=
  let cs := ((cs.dropWhile isPySpace).reverse.dropWhile isPySpace).reverse
  let (sign, ds) := match cs with
    | '-' :: t => (true, t)
    | t => (false, t)
  if ds ≠ [] ∧ ds.all (fun c => c.isDigit) then
    some ((if sign then -1 else 1) * (digitsToNat ds : Int))
  else none

def jsonLoadsDays (s : String) : Option JVal :=
  let cs := ((s.toList.dropWhile isPySpace).reverse.dropWhile isPySpace).reverse
  match cs with
  | '[' :: r =>
    match r.reverse with
    | ']' :: innerRev =>
      let inner := innerRev.reverse
      if inner.all isPySpace then some (.arr [])
      else
        let parts := splitAllChar ',' inner
        let nums := parts.filterMap (fun p => parseIntToken p)
        if nums.length = parts.length then
          some (.arr (nums.map (fun n => JVal.num ⟨n, 0⟩)))
        else none
    | _ => none
  | _ =>
    match parseIntToken cs with
    | some n => some (.num ⟨n, 0⟩)
    | none => none

/-- The `isinstance(days, str)` normalization of `_ticketing_schedule_allows`
(`json.loads` with `[]` on failure). -/
def daysValue (raw : JVal) : JVal :=
  match raw with
  | .str s => (jsonLoadsDays s).getD (.arr [])
  | v => v

/-- Python iteration over the `days` value: lists yield elements, strings
yield characters, dictionaries yield keys, anything else raises
(`Except.error`). -/
def pyIterate : JVal → Except Unit (List JVal)
  | .arr xs => .ok xs
  | .str s => .ok (s.toList.map (fun c => .str (String.singleton c)))
  | .obj kvs => .ok (kvs.map (fun kv => JVal.str kv.1))
  | _ => .error ()

/-- `set(int(x) for x in days if str(x).isdigit() or isinstance(x, int))`:
the kept entries converted, propagating conversion errors. -/
def dayInts : List JVal → Except Unit (List Int)
  | [] => .ok []
  | x :: rest =>
    if pyIsdigitStr (pyStr x) || isPyInt x then
      match pyIntOfJVal x with
      | .error e => .error e
      | .ok n =>
        match dayInts rest with
        | .error e => .error e
        | .ok ns => .ok (n :: ns)
    else dayInts rest

/-- `_parse_hhmm` of `src/services/gateway/permissions_store.py`. -/
def parseHHMM (s : String) : Option (Nat × Nat) :=
  let v := pyStrip s
  if v = "" then none
  else
    match splitFirstChar ':' v.toList with
    | none => none
    | some (h, rest) =>
      match pyIntOfStr (String.mk h), pyIntOfStr (String.mk rest) with
      | some hh, some mm =>
        if 0 ≤ hh ∧ hh ≤ 23 ∧ 0 ≤ mm ∧ mm ≤ 59 then some (hh.toNat, mm.toNat) else none
      | _, _ => none

/-- The ordered rule scan of `_ticketing_schedule_allows`: `wd` is the local
weekday (0 = Monday), `nowSec` the local time of day in seconds. -/
def schedRulesLoop : List JVal → Int → Nat → Except Unit Bool
  | [], _, _ => .ok false
  | r :: rest, wd, nowSec =>
    match r with
    | .obj _ =>
      match (match pyIterate (daysValue (pyOr (jget r "days") (.arr []))) with
        | .error e => Except.error e
        | .ok di => dayInts di) with
      | .error e => .error e
      | .ok ds =>
        if wd ∉ ds then schedRulesLoop rest wd nowSec
        else
          match parseHHMM (pyStr (pyOr (jget r "start") (.str ""))),
              parseHHMM (pyStr (pyOr (jget r "end") (.str ""))) with
          | some st, some en =>
            let stS := st.1 * 3600 + st.2 * 60
            let enS := en.1 * 3600 + en.2 * 60
            if stS ≤ enS ∧ stS ≤ nowSec ∧ nowSec ≤ enS then .ok true
            else if enS < stS ∧ (stS ≤ nowSec ∨ nowSec ≤ enS) then .ok true
            else schedRulesLoop rest wd nowSec
          | _, _ => schedRulesLoop rest wd nowSec
    | _ => schedRulesLoop rest wd nowSec

/-- The body of `_ticketing_schedule_allows` inside its `try` block.  The
timezone resolution only affects which local instant `(wd, nowSec)` denotes,
so the instant is a parameter. -/
def scheduleAllowsCore (schedule : JVal) (wd : Int) (nowSec : Nat) : Except Unit Bool :=
  match schedule with
  | .obj _ =>
    if ¬ pyTruthy (jget schedule "enabled") then .ok true
    else
      match pyOr (jget schedule "rules") (.arr []) with
      | .arr [] => .ok false
      | .arr rs => schedRulesLoop rs wd nowSec
      | _ => .ok false
  | _ => .ok true

/-- `_ticketing_schedule_allows` of
`src/services/gateway/permissions_store.py`: the surrounding
`except Exception: return True`. -/
def ticketingScheduleAllows (schedule : JVal) (wd : Int) (nowSec : Nat) : Bool :=
  match scheduleAllowsCore schedule wd nowSec with
  | .ok b => b
  | .error _ => true

/-- The policy snapshot `_ota_policy` returns. -/
structure OtaPolicy where
  availability : Bool
  ticketingEffective : Bool
  ticketingMode : String
  ticketingScheduleOk : Bool
  filtersEnabled : Bool
  blockedAirlines : List String
deriving DecidableEq

/-- The disabled defaults `_ota_policy` returns for a missing provider. -/
def disabledPolicy : OtaPolicy :=
  { availability := false, ticketingEffective := false,
    ticketingMode := "availability_only", ticketingScheduleOk := false,
    filtersEnabled := true, blockedAirlines := [] }

/-- Python `needle in container` for the blocked-supplier check. -/
def pyInContains (needle : String) : JVal → Bool
  | .arr xs => xs.any (fun x => x = .str needle)
  | .obj kvs => kvs.any (fun kv => kv.1 = needle)
  | .str s => containsSub needle.toList s.toList
  | _ => false

/-- The `blocked_airlines` comprehension of `_ota_policy`. -/
def blockedAirlinesOf (p : JVal) : List String :=
  ((match pyOr (jget p "blocked_airlines") (.arr []) with
    | .arr xs => xs
    | .str s => s.toList.map (fun c => JVal.str (String.singleton c))
    | .obj kvs => kvs.map (fun kv : String × JVal => JVal.str kv.1)
    | _ => ([] : List JVal)).map (fun x => pyStrip (pyStr x))).filterMap
    (fun s => if s = "" then none else some (pyUpper s))

/-- `_ota_policy` of `src/services/gateway/permissions_store.py`, as a pure
function of the stored provider entry (`None` when the provider was deleted)
and the current local instant. -/
def otaPolicy (provider : Option JVal) (wd : Int) (nowSec : Nat) : OtaPolicy :=
  match provider with
  | none => disabledPolicy
  | some p =>
    match p with
    | .obj _ =>
      let avail0 := pyTruthy (jgetD p "availability_enabled" (.bool true))
      let availability := avail0 && ! pyInContains "OTA" (pyOr (jget p "blocked_suppliers") (.arr []))
      let mode := pyLower (pyStrip (pyStr (pyOr (jget p "ticketing_mode") (.str "full"))))
      let schedOk := ticketingScheduleAllows (pyOr (jget p "ticketing_schedule") (.obj [])) wd nowSec
      { availability := availability,
        ticketingEffective := availability && (mode = "full") && schedOk,
        ticketingMode := if mode = "full" then "full" else "availability_only",
        ticketingScheduleOk := schedOk,
        filtersEnabled := pyTruthy (jgetD p "filters_enabled" (.bool true)),
        blockedAirlines := blockedAirlinesOf p }
    | _ => disabledPolicy

/-- The outcome of the single upstream booking POST (`client.air_book`):
the response body on 2xx, `httpStatusError` for an HTTP error status
(`raise_for_status`), `transportError` for any other transport failure. -/
inductive NetResult : Type where
  | ok (respXml : String) : NetResult
  | httpStatusError : NetResult
  | transportError : NetResult
deriving DecidableEq

/-- The responses the `book` endpoint produces.  Reference extraction from
the response XML (`_extract_refs`) only fills two display fields of the
success payload and is not modelled; a success carries the request and
response bodies. -/
inductive BookResponse : Type where
  | configError : BookResponse
  | disabledMeta (reason : String) : BookResponse
  | pendingPolicy (pendingId provider reason : String) : BookResponse
  | badRequest (detail : String) : BookResponse
  | bookSuccess (requestXml responseXml : String) : BookResponse
  | pendingUpstream (pendingId provider reason : String) : BookResponse
deriving DecidableEq

/-- The `"PND-" + uuid4().hex[:10].upper()` pending identifier (`uuidHex`
stands for the random hex draw). -/
def pendingIdOf (uuidHex : String) : String :=
  "PND-" ++ pyUpper (strTake uuidHex 10)

/-- `book` of `src/services/gateway/routers/flights.py`, as a function of the
policy snapshot, the parsed itinerary payloads (`Except.error` models a
`json.loads` failure), and the booking-transport oracle.  The second
component counts upstream calls made.  The generic `except Exception`
around build-plus-book turns a build `ValueError` into the same pending
response as a transport error. -/
def bookHandler (clientOk : Bool) (pol : OtaPolicy)
    (outbound : Except String JVal) (ret : Option (Except String JVal))
    (passengers : List Passenger) (contact : Option Contact)
    (tripType : String) (uuidHex : String) (net : String → NetResult) :
    BookResponse × Nat :=
  if ¬ clientOk then (.configError, 0)
  else if ¬ pol.availability then (.disabledMeta "Provider OTA is disabled", 0)
  else if ¬ pol.ticketingEffective then
    (.pendingPolicy (pendingIdOf uuidHex) "OTA" "Ticketing is disabled by permissions or schedule.", 0)
  else
    match outbound with
    | .error e => (.badRequest ("Invalid outbound_itinerary_json: " ++ e), 0)
    | .ok obPi =>
      match (match ret with
        | none => Except.ok (none : Option JVal)
        | some (.error e) => Except.error e
        | some (.ok v) => Except.ok (some v)) with
      | .error e => (.badRequest ("Invalid return_itinerary_json: " ++ e), 0)
      | .ok retPi =>
        if passengers.isEmpty then (.badRequest "passengers is required", 0)
        else
          match buildAirbookXml obPi retPi passengers contact tripType with
          | .error _ =>
            (.pendingUpstream (pendingIdOf uuidHex) "OTA" "Ticketing failed. Manual completion required.", 0)
          | .ok xml =>
            match net xml with
            | .ok resp => (.bookSuccess xml resp, 1)
            | .httpStatusError =>
              (.pendingUpstream (pendingIdOf uuidHex) "OTA" "Ticketing failed upstream. Manual completion required.", 1)
            | .transportError =>
              (.pendingUpstream (pendingIdOf uuidHex) "OTA" "Ticketing failed. Manual completion required.", 1)

/-- `_flight_key` of `src/apps/web_portal/app.py`: one
`airline|flight|dep|arr|dep_dt|arr_dt` part per dictionary segment, joined
with `"||"`; `""` for non-dictionary input. -/
def flightKey (result : JVal) : String :=
  match result with
  | .obj _ =>
    let segs := match pyOr (jget result "segments") (.arr []) with
      | .arr xs => xs
      | _ => []
    let parts := (segs.filter isObj).map (fun s =>
      pyStr (pyOr (jget s "airline") (.str "")) ++ "|" ++
      pyStr (pyOr (jget s "flight") (.str "")) ++ "|" ++
      pyStr (pyOr (jget s "dep") (.str "")) ++ "|" ++
      pyStr (pyOr (jget s "arr") (.str "")) ++ "|" ++
      pyStr (pyOr (jget s "dep_dt") (.str "")) ++ "|" ++
      pyStr (pyOr (jget s "arr_dt") (.str "")))
    joinSep "||" parts
  | _ => ""

/-- The key set of one probe response side:
`{_flight_key(x) for x in res if _flight_key(x)}` (membership model of the
Python set). -/
def presentKeys (results : List JVal) : List String :=
  (results.map flightKey).filter (fun s => s ≠ "")

/-- `{str(k): None for k in keys if str(k)}`: insertion-ordered dictionary
with `None` values (duplicates keep their first position). -/
def initStep (acc : List (String × Option Nat)) (k : String) :
    List (String × Option Nat) :=
  if k = "" then acc
  else if (acc.lookup k).isSome then acc
  else acc ++ [(k, none)]

def initSeats (keys : List String) : List (String × Option Nat) :=
  keys.foldl initStep []

/-- One probe update of `_estimate_seats_for_keys`: every still-unresolved
key absent from this probe resolves to `paxTotal - 1`. -/
def probeStep (present : List String) (paxTotal : Nat)
    (seats : List (String × Option Nat)) : List (String × Option Nat) :=
  seats.map (fun kv =>
    (kv.1, if kv.2 = none ∧ kv.1 ∉ present then some (paxTotal - 1) else kv.2))

/-- The probe loop of `_estimate_seats_for_keys` over the remaining
`paxTotal` values; a probe failure aborts the whole estimation. -/
def runProbes (probe : Nat → Except Unit (List JVal × List JVal)) :
    List Nat → List (String × Option Nat) → List (String × Option Nat) →
    Except Unit (List (String × Option Nat) × List (String × Option Nat))
  | [], so, si => .ok (so, si)
  | p :: rest, so, si =>
    match probe p with
    | .error e => .error e
    | .ok (ro, ri) =>
      runProbes probe rest (probeStep (presentKeys ro) p so) (probeStep (presentKeys ri) p si)

/-- The final `None → 9` display-cap pass. -/
def finalizeSeats (seats : List (String × Option Nat)) : List (String × Nat) :=
  seats.map (fun kv => (kv.1, kv.2.getD 9))

/-- `_estimate_seats_for_keys` of `src/apps/web_portal/app.py`.  The probe
oracle models one availability POST at the given total pax count followed by
`_filter_by_allowed_providers` on both result lists; an `Except.error` is a
transport failure (`raise_for_status` or connection error), which makes the
whole function return two empty maps. -/
def estimateSeatsForKeys (keysOut keysIn : List String)
    (baseAdults baseChildren baseInfants : Nat)
    (probe : Nat → Except Unit (List JVal × List JVal)) :
    List (String × Nat) × List (String × Nat) :=
  let seatsOut := initSeats keysOut
  let seatsIn := initSeats keysIn
  if seatsOut.isEmpty ∧ seatsIn.isEmpty then ([], [])
  else
    let baseTotal := max 1 (baseAdults + baseChildren + baseInfants)
    let maxCheck := 8
    if maxCheck ≤ baseTotal then
      let seats := min 9 baseTotal
      (seatsOut.map (fun kv => (kv.1, seats)), seatsIn.map (fun kv => (kv.1, seats)))
    else
      match runProbes probe (List.range' (baseTotal + 1) (maxCheck - baseTotal)) seatsOut seatsIn with
      | .error _ => ([], [])
      | .ok (so, si) => (finalizeSeats so, finalizeSeats si)

def exSeg1 : JVal := .obj [("dep", .str "BGW"), ("arr", .str "DXB"),
  ("dep_dt", .str "2026-02-02T10:00:00.000+0300"), ("arr_dt", .str "2026-02-02T11:30:00.000+0300"),
  ("airline", .str "IA"), ("flight", .str "123")]

def exRec1 : JVal := .obj [("segments", .arr [exSeg1])]

def exPax : Passenger := { firstName := "John", lastName := "Doe", birthDate := "1990-01-01" }

def exPolFull : OtaPolicy :=
  { availability := true, ticketingEffective := true, ticketingMode := "full",
    ticketingScheduleOk := true, filtersEnabled := true, blockedAirlines := [] }

def exOutbound : JVal := .obj [
  ("segments", .arr [exSeg1]),
  ("ticketing", .obj [("companyShortName", .str "IA"), ("code", .str "IA"), ("codeContext", .str "VND")]),
  ("total_currency", .str "IQD"), ("amount_raw", .num ⟨1234500, 1⟩)]

/-- Whether a response is the success variant. -/
def isSuccess : BookResponse → Bool
  | .bookSuccess _ _ => true
  | _ => false

def exKey1 : String := flightKey exRec1
def exRec2 : JVal := .obj [("segments", .arr [.obj [("airline", .str "IA"), ("flight", .str "456")]])]
def exKey2 : String := flightKey exRec2

/-- C3 counterexample: at the spec's own inputs (10:00 to 11:30, and equal
timestamps) the normalizer's formatter does not produce the claimed
`"1 hr 30 min"` / `"0 min"` strings. -/
theorem c3_format_counterexample :
    fmtDuration (durationMinutes (.str "2026-02-02T10:00:00.000+0300")
        (.str "2026-02-02T11:30:00.000+0300")) ≠ "1 hr 30 min"
    ∧ fmtDuration (durationMinutes (.str "2026-02-02T10:00:00.000+0300")
        (.str "2026-02-02T10:00:00.000+0300")) ≠ "0 min" := by
  exact ⟨by decide, by decide⟩

/-- C3 (amended): a 10:00 to 11:30 same-day pair yields 90 minutes, formatted
`"1h 30m"`; equal timestamps yield 0 minutes, formatted as the empty string;
the duration is clamped to at least 0 on inconsistent timestamps. -/
theorem c3_duration_amended :
    durationMinutes (.str "2026-02-02T10:00:00.000+0300")
        (.str "2026-02-02T11:30:00.000+0300") = 90
    ∧ fmtDuration 90 = "1h 30m"
    ∧ (∀ v : JVal, durationMinutes v v = 0)
    ∧ fmtDuration 0 = ""
    ∧ (∀ a b : JVal, 0 ≤ durationMinutes a b) := by
  refine ⟨by decide, by decide, ?_, by decide, ?_⟩
  · intro v
    unfold durationMinutes
    cases h : parseDt v with
    | none => rfl
    | some d => simp [h]
  · intro a b
    unfold durationMinutes
    cases parseDt a with
    | none => exact le_refl 0
    | some d0 =>
      cases parseDt b with
      | none => exact le_refl 0
      | some d1 => exact le_max_left 0 _

/-- The enumerated skip-or-keep loop of the normalizer equals a filter of the
enumerated input followed by the per-itinerary conversion. -/
theorem normLoop_eq_filter_map (pis : List JVal) :
    ∀ idx : Nat,
      normLoop idx pis
        = ((List.enumFrom idx pis).filter (fun p => !(segsOfPi p.2).isEmpty)).map
            (fun p => itinBody p.1 p.2) := by
  induction pis with
  | nil => intro idx; rfl
  | cons pi rest ih =>
    intro idx
    by_cases h : (segsOfPi pi).isEmpty
    · simp [normLoop, List.enumFrom, h, ih (idx + 1)]
    · simp [normLoop, List.enumFrom, h, ih (idx + 1)]

/-- C8: normalization keeps exactly the priced itineraries whose extracted
segment list is non-empty, in their original order (each converted by the
per-itinerary body with its original 1-based position); empty-segment
itineraries are dropped and the function is total, so a dropped itinerary
never fails the batch. -/
theorem c8_normalize_filter (resp : JVal) :
    (normalizePricedItineraries resp).resultsOutbound
      = ((List.enumFrom 1 (pisOf resp)).filter (fun p => !(segsOfPi p.2).isEmpty)).map
          (fun p => itinBody p.1 p.2) := by
  unfold normalizePricedItineraries
  exact normLoop_eq_filter_map (pisOf resp) 1

/-- C9: whenever the schedule evaluation raises internally (the core
evaluation is an error), `_ticketing_schedule_allows` returns `true`: the
policy engine fails open on evaluator errors. -/
theorem c9_fails_open (sched : JVal) (wd : Int) (nowSec : Nat)
    (h : scheduleAllowsCore sched wd nowSec = .error ()) :
    ticketingScheduleAllows sched wd nowSec = true := by
  unfold ticketingScheduleAllows
  rw [h]

/-- A schedule whose rule has a non-iterable `days` value: the weekday scan
raises a `TypeError` inside the `try` block. -/
def exErrSched : JVal :=
  .obj [("enabled", .bool true), ("rules", .arr [.obj [("days", .num ⟨3, 0⟩)]])]

/-- C9 witness: the non-iterable `days` schedule errors internally and the
check nevertheless permits ticketing. -/
theorem c9_fails_open_witness :
    scheduleAllowsCore exErrSched 2 0 = .error ()
    ∧ ticketingScheduleAllows exErrSched 2 0 = true :=
  ⟨by decide, c9_fails_open exErrSched 2 0 (by decide)⟩

/-- A well-formed schedule rule: a weekday set and `HH:MM` start / end
times. -/
structure SchedRule where
  days : List Int
  startH : Nat
  startM : Nat
  endH : Nat
  endM : Nat
deriving DecidableEq

/-- The JSON encoding of a rule as the permissions store holds it. -/
def ruleJVal (r : SchedRule) : JVal :=
  .obj [("days", .arr (r.days.map (fun n => JVal.num ⟨n, 0⟩))),
    ("start", .str (pad2 r.startH ++ ":" ++ pad2 r.startM)),
    ("end", .str (pad2 r.endH ++ ":" ++ pad2 r.endM))]

/-- The JSON encoding of a ticketing schedule. -/
def schedJVal (enabled : Bool) (rules : List SchedRule) : JVal :=
  .obj [("enabled", .bool enabled), ("rules", .arr (rules.map ruleJVal))]

/-- The matching condition of the specification: the days set contains the
weekday, and the time window test with the overnight (`start > end`)
variant. -/
def ruleMatches (r : SchedRule) (wd : Int) (nowSec : Nat) : Bool :=
  let stS := r.startH * 3600 + r.startM * 60
  let enS := r.endH * 3600 + r.endM * 60
  decide (wd ∈ r.days) &&
    (decide (stS ≤ enS ∧ stS ≤ nowSec ∧ nowSec ≤ enS) ||
     decide (enS < stS ∧ (stS ≤ nowSec ∨ nowSec ≤ enS)))

theorem dayInts_intList : ∀ ds : List Int, dayInts (ds.map (fun n => JVal.num ⟨n, 0⟩)) = .ok ds := by
  intro ds
  induction ds with
  | nil => rfl
  | cons n rest ih => simp [dayInts, isPyInt, pyIntOfJVal, ih]

theorem pyOr_arr (l : List JVal) : pyOr (.arr l) (.arr []) = .arr l := by
  by_cases h : l = [] <;> simp [pyOr, pyTruthy, h]

theorem parseHHMM_pad (h m : Nat) (hh : h ≤ 23) (hm : m ≤ 59) :
    parseHHMM (pad2 h ++ ":" ++ pad2 m) = some (h, m)
    ∧ (pad2 h ++ ":" ++ pad2 m) ≠ "" := by
  have key : ∀ a < 24, ∀ b < 60,
      parseHHMM (pad2 a ++ ":" ++ pad2 b) = some (a, b) ∧ (pad2 a ++ ":" ++ pad2 b) ≠ "" := by decide
  exact key h (by omega) m (by omega)

theorem jget_rule3_days (dv sv ev : JVal) :
    jget (.obj [("days", dv), ("start", sv), ("end", ev)]) "days" = dv := rfl

theorem jget_rule3_start (dv sv ev : JVal) :
    jget (.obj [("days", dv), ("start", sv), ("end", ev)]) "start" = sv := rfl

theorem jget_rule3_end (dv sv ev : JVal) :
    jget (.obj [("days", dv), ("start", sv), ("end", ev)]) "end" = ev := rfl

theorem jget_sched2_enabled (ev rv : JVal) :
    jget (.obj [("enabled", ev), ("rules", rv)]) "enabled" = ev := rfl

theorem jget_sched2_rules (ev rv : JVal) :
    jget (.obj [("enabled", ev), ("rules", rv)]) "rules" = rv := rfl

theorem schedRulesLoop_any (rules : List SchedRule) (wd : Int) (nowSec : Nat)
    (hb : ∀ r ∈ rules, r.startH ≤ 23 ∧ r.startM ≤ 59 ∧ r.endH ≤ 23 ∧ r.endM ≤ 59) :
    schedRulesLoop (rules.map ruleJVal) wd nowSec
      = .ok (rules.any (fun r => ruleMatches r wd nowSec)) := by
  induction rules with
  | nil => rfl
  | cons r rest ih =>
    have hr := hb r (List.mem_cons_self r rest)
    have hst := parseHHMM_pad r.startH r.startM hr.1 hr.2.1
    have hen := parseHHMM_pad r.endH r.endM hr.2.2.1 hr.2.2.2
    have ihr := ih (fun q hq => hb q (List.mem_cons_of_mem r hq))
    simp only [List.map_cons, ruleJVal, schedRulesLoop, jget_rule3_days, jget_rule3_start,
      jget_rule3_end, pyOr_arr, daysValue, pyIterate, dayInts_intList, List.any_cons]
    rw [show (pyOr (JVal.str (pad2 r.startH ++ ":" ++ pad2 r.startM)) (JVal.str ""))
        = JVal.str (pad2 r.startH ++ ":" ++ pad2 r.startM) by simp [pyOr, pyTruthy, hst.2]]
    rw [show (pyOr (JVal.str (pad2 r.endH ++ ":" ++ pad2 r.endM)) (JVal.str ""))
        = JVal.str (pad2 r.endH ++ ":" ++ pad2 r.endM) by simp [pyOr, pyTruthy, hen.2]]
    simp only [pyStr, hst.1, hen.1]
    by_cases hmem : wd ∈ r.days
    · by_cases hc1 : r.startH * 3600 + r.startM * 60 ≤ r.endH * 3600 + r.endM * 60
          ∧ r.startH * 3600 + r.startM * 60 ≤ nowSec ∧ nowSec ≤ r.endH * 3600 + r.endM * 60
      · simp [ruleMatches, hc1, hmem]
      · by_cases hc2 : r.endH * 3600 + r.endM * 60 < r.startH * 3600 + r.startM * 60
            ∧ (r.startH * 3600 + r.startM * 60 ≤ nowSec ∨ nowSec ≤ r.endH * 3600 + r.endM * 60)
        · simp [ruleMatches, hc1, hc2, hmem]
        · simp [ruleMatches, hc1, hc2, hmem, ihr]
    · simp [ruleMatches, hmem, ihr]

/-- The spec's overnight example rule: every day, 22:00 to 02:00. -/
def exOvernightSched : JVal := schedJVal true [⟨[0, 1, 2, 3, 4, 5, 6], 22, 0, 2, 0⟩]

/-- C5: a disabled schedule always allows ticketing; an enabled well-formed
schedule allows it exactly when some rule matches (days contain the weekday
and the time window test, with the overnight variant when start > end) — in
particular an enabled schedule with no matching rule denies; and the
overnight `22:00`-`02:00` every-day rule allows at 23:30 and 01:00 and
denies at 12:00. -/
theorem c5_schedule_characterization (rules : List SchedRule) (wd : Int) (nowSec : Nat)
    (hb : ∀ r ∈ rules, r.startH ≤ 23 ∧ r.startM ≤ 59 ∧ r.endH ≤ 23 ∧ r.endM ≤ 59) :
    ticketingScheduleAllows (schedJVal false rules) wd nowSec = true
    ∧ ticketingScheduleAllows (schedJVal true rules) wd nowSec
        = rules.any (fun r => ruleMatches r wd nowSec)
    ∧ ticketingScheduleAllows exOvernightSched 2 (23 * 3600 + 30 * 60) = true
    ∧ ticketingScheduleAllows exOvernightSched 2 (1 * 3600) = true
    ∧ ticketingScheduleAllows exOvernightSched 2 (12 * 3600) = false := by
  refine ⟨?_, ?_, by decide, by decide, by decide⟩
  · simp [ticketingScheduleAllows, scheduleAllowsCore, schedJVal, jget_sched2_enabled, pyTruthy]
  · cases rules with
    | nil => rfl
    | cons r rest =>
      unfold ticketingScheduleAllows
      simp only [schedJVal, scheduleAllowsCore, jget_sched2_enabled, jget_sched2_rules,
        pyTruthy, List.map_cons]
      rw [show (pyOr (JVal.arr (ruleJVal r :: rest.map ruleJVal)) (JVal.arr []))
          = JVal.arr (ruleJVal r :: rest.map ruleJVal) by simp [pyOr, pyTruthy]]
      have hloop := schedRulesLoop_any (r :: rest) wd nowSec hb
      rw [List.map_cons] at hloop
      show (match schedRulesLoop (ruleJVal r :: List.map ruleJVal rest) wd nowSec with
        | Except.ok b => b
        | Except.error _ => true) = (r :: rest).any fun q => ruleMatches q wd nowSec
      rw [hloop]

/-- C5 witness: the characterization applied to the overnight example rule at
23:30 on a Wednesday. -/
theorem c5_schedule_witness :
    ticketingScheduleAllows (schedJVal true [⟨[0, 1, 2, 3, 4, 5, 6], 22, 0, 2, 0⟩]) 2 (23 * 3600 + 30 * 60)
      = ([(⟨[0, 1, 2, 3, 4, 5, 6], 22, 0, 2, 0⟩ : SchedRule)]).any
          (fun r => ruleMatches r 2 (23 * 3600 + 30 * 60)) :=
  (c5_schedule_characterization [⟨[0, 1, 2, 3, 4, 5, 6], 22, 0, 2, 0⟩] 2 (23 * 3600 + 30 * 60)
    (by decide)).2.1

/-- A normalized segment carrying the six key fields as strings. -/
def mkSegRec (dep arr ddt adt al fl : String) : JVal :=
  .obj [("dep", .str dep), ("arr", .str arr), ("dep_dt", .str ddt), ("arr_dt", .str adt),
    ("airline", .str al), ("flight", .str fl)]

/-- A normalized result record with the given first segment. -/
def mkItinRec (seg : JVal) (rest : List JVal) : JVal :=
  .obj [("segments", .arr (seg :: rest))]

theorem pyStr_pyOr_str (s : String) : pyStr (pyOr (.str s) (.str "")) = s := by
  by_cases h : s = "" <;> simp [pyOr, pyTruthy, pyStr, h]

theorem jget_mkSegRec_dep (dep arr ddt adt al fl : String) :
    jget (mkSegRec dep arr ddt adt al fl) "dep" = .str dep := rfl

theorem jget_mkSegRec_arr (dep arr ddt adt al fl : String) :
    jget (mkSegRec dep arr ddt adt al fl) "arr" = .str arr := rfl

theorem jget_mkSegRec_depdt (dep arr ddt adt al fl : String) :
    jget (mkSegRec dep arr ddt adt al fl) "dep_dt" = .str ddt := rfl

theorem jget_mkSegRec_arrdt (dep arr ddt adt al fl : String) :
    jget (mkSegRec dep arr ddt adt al fl) "arr_dt" = .str adt := rfl

theorem jget_mkSegRec_airline (dep arr ddt adt al fl : String) :
    jget (mkSegRec dep arr ddt adt al fl) "airline" = .str al := rfl

theorem jget_mkSegRec_flight (dep arr ddt adt al fl : String) :
    jget (mkSegRec dep arr ddt adt al fl) "flight" = .str fl := rfl

theorem jget_mkItinRec_segments (seg : JVal) (rest : List JVal) :
    jget (mkItinRec seg rest) "segments" = .arr (seg :: rest) := rfl

theorem pyOr_arr_cons (x : JVal) (xs : List JVal) :
    pyOr (.arr (x :: xs)) (.arr []) = .arr (x :: xs) := by
  simp [pyOr, pyTruthy]

theorem pyOr_mkSegRec (dep arr ddt adt al fl : String) (b : JVal) :
    pyOr (mkSegRec dep arr ddt adt al fl) b = mkSegRec dep arr ddt adt al fl := by
  simp [pyOr, pyTruthy, mkSegRec]

/-- The availability router's key of a normalized record is the
`dep|arr|dep_dt|arr_dt|airline|flight` signature of the first segment, with
the airport and airline codes upper-cased and the datetimes and flight
number stripped. -/
theorem normSig_mkItinRec (dep arr ddt adt al fl : String) (rest : List JVal) :
    normSigFromResult (mkItinRec (mkSegRec dep arr ddt adt al fl) rest)
      = pyUpper dep ++ "|" ++ pyUpper arr ++ "|" ++ pyStrip ddt ++ "|" ++ pyStrip adt
        ++ "|" ++ pyUpper al ++ "|" ++ pyStrip fl := by
  unfold normSigFromResult
  rw [jget_mkItinRec_segments, pyOr_arr_cons]
  simp only [pyOr_mkSegRec, jget_mkSegRec_dep, jget_mkSegRec_arr, jget_mkSegRec_depdt,
    jget_mkSegRec_arrdt, jget_mkSegRec_airline, jget_mkSegRec_flight, pyStr_pyOr_str]

/-- The seat estimator's key of the same single-segment record: a different
string, in `airline|flight|dep|arr|dep_dt|arr_dt` order with no upper-casing
or stripping. -/
theorem flightKey_mkItinRec (dep arr ddt adt al fl : String) :
    flightKey (mkItinRec (mkSegRec dep arr ddt adt al fl) [])
      = al ++ "|" ++ fl ++ "|" ++ dep ++ "|" ++ arr ++ "|" ++ ddt ++ "|" ++ adt := by
  unfold flightKey
  rw [show jget (mkItinRec (mkSegRec dep arr ddt adt al fl) []) "segments"
      = .arr [mkSegRec dep arr ddt adt al fl] from rfl]
  rw [pyOr_arr_cons]
  simp only [List.filter, List.map]
  rw [show (mkItinRec (mkSegRec dep arr ddt adt al fl) [])
      = .obj [("segments", .arr [mkSegRec dep arr ddt adt al fl])] from rfl]
  simp only [jget_mkSegRec_dep, jget_mkSegRec_arr, jget_mkSegRec_depdt, jget_mkSegRec_arrdt,
    jget_mkSegRec_airline, jget_mkSegRec_flight, pyStr_pyOr_str, joinSep]

theorem append_pipe_cancel :
    ∀ l1 l2 r1 r2 : List Char, '|' ∉ l1 → '|' ∉ l2 →
      l1 ++ '|' :: r1 = l2 ++ '|' :: r2 → l1 = l2 ∧ r1 = r2 := by
  intro l1
  induction l1 with
  | nil =>
    intro l2 r1 r2 _ h2 he
    cases l2 with
    | nil => simpa using he
    | cons c cs =>
      exfalso
      simp only [List.nil_append, List.cons_append, List.cons.injEq] at he
      exact h2 (he.1 ▸ List.mem_cons_self '|' cs)
  | cons c cs ih =>
    intro l2 r1 r2 h1 h2 he
    cases l2 with
    | nil =>
      exfalso
      simp only [List.nil_append, List.cons_append, List.cons.injEq] at he
      exact h1 (he.1 ▸ List.mem_cons_self '|' cs)
    | cons c2 cs2 =>
      simp only [List.cons_append, List.cons.injEq] at he
      have hrec := ih cs2 r1 r2 (fun hm => h1 (List.mem_cons_of_mem c hm))
        (fun hm => h2 (List.mem_cons_of_mem c2 hm)) he.2
      exact ⟨by rw [he.1, hrec.1], hrec.2⟩

/-- Data-level view of one `x ++ "|" ++ y` step. -/
theorem data_append_pipe (x y : String) :
    (x ++ "|" ++ y).data = x.data ++ '|' :: y.data := by
  rw [String.data_append, String.data_append]
  simp

/-- The six-component `"|"`-join used by the gateway key is injective on
pipe-free components. -/
theorem joinPipe6_inj (x1 x2 x3 x4 x5 x6 y1 y2 y3 y4 y5 y6 : String)
    (hx1 : '|' ∉ x1.data) (hx2 : '|' ∉ x2.data) (hx3 : '|' ∉ x3.data)
    (hx4 : '|' ∉ x4.data) (hx5 : '|' ∉ x5.data)
    (hy1 : '|' ∉ y1.data) (hy2 : '|' ∉ y2.data) (hy3 : '|' ∉ y3.data)
    (hy4 : '|' ∉ y4.data) (hy5 : '|' ∉ y5.data)
    (he : x1 ++ "|" ++ x2 ++ "|" ++ x3 ++ "|" ++ x4 ++ "|" ++ x5 ++ "|" ++ x6
      = y1 ++ "|" ++ y2 ++ "|" ++ y3 ++ "|" ++ y4 ++ "|" ++ y5 ++ "|" ++ y6) :
    x1 = y1 ∧ x2 = y2 ∧ x3 = y3 ∧ x4 = y4 ∧ x5 = y5 ∧ x6 = y6 := by
  have hd := congrArg String.data he
  rw [show x1 ++ "|" ++ x2 ++ "|" ++ x3 ++ "|" ++ x4 ++ "|" ++ x5 ++ "|" ++ x6
      = x1 ++ "|" ++ (x2 ++ "|" ++ (x3 ++ "|" ++ (x4 ++ "|" ++ (x5 ++ "|" ++ x6)))) by
    simp [String.append_assoc]] at hd
  rw [show y1 ++ "|" ++ y2 ++ "|" ++ y3 ++ "|" ++ y4 ++ "|" ++ y5 ++ "|" ++ y6
      = y1 ++ "|" ++ (y2 ++ "|" ++ (y3 ++ "|" ++ (y4 ++ "|" ++ (y5 ++ "|" ++ y6)))) by
    simp [String.append_assoc]] at hd
  simp only [data_append_pipe] at hd
  obtain ⟨e1, hd⟩ := append_pipe_cancel _ _ _ _ hx1 hy1 hd
  obtain ⟨e2, hd⟩ := append_pipe_cancel _ _ _ _ hx2 hy2 hd
  obtain ⟨e3, hd⟩ := append_pipe_cancel _ _ _ _ hx3 hy3 hd
  obtain ⟨e4, hd⟩ := append_pipe_cancel _ _ _ _ hx4 hy4 hd
  obtain ⟨e5, hd⟩ := append_pipe_cancel _ _ _ _ hx5 hy5 hd
  exact ⟨String.ext e1, String.ext e2, String.ext e3, String.ext e4, String.ext e5,
    String.ext hd⟩

/-- C2 counterexample: on one and the same normalized single-segment record
the availability router's key and the seat estimator's key are different
strings, so the components do not all compute the same ItineraryKey. -/
theorem c2_key_counterexample : normSigFromResult exRec1 ≠ flightKey exRec1 := by decide

/-- C2 (amended): the availability router's round-trip matching key is the
`dep|arr|depDateTime|arrDateTime|airlineCode|flightNumber` signature of the
first segment (codes upper-cased, datetimes and flight number stripped), and
on pipe-free components two records get the same key exactly when all six
normalized components agree; the seat estimator's `_flight_key`, however,
computes a different string — `airline|flight|dep|arr|dep_dt|arr_dt` per
segment without normalization — so the two components do not share one key
function. -/
theorem c2_key_amended :
    (∀ dep arr ddt adt al fl : String, ∀ rest : List JVal,
      normSigFromResult (mkItinRec (mkSegRec dep arr ddt adt al fl) rest)
        = pyUpper dep ++ "|" ++ pyUpper arr ++ "|" ++ pyStrip ddt ++ "|" ++ pyStrip adt
          ++ "|" ++ pyUpper al ++ "|" ++ pyStrip fl)
    ∧ (∀ dep arr ddt adt al fl : String,
      flightKey (mkItinRec (mkSegRec dep arr ddt adt al fl) [])
        = al ++ "|" ++ fl ++ "|" ++ dep ++ "|" ++ arr ++ "|" ++ ddt ++ "|" ++ adt)
    ∧ (∀ dep1 arr1 ddt1 adt1 al1 fl1 dep2 arr2 ddt2 adt2 al2 fl2 : String,
        ∀ rest1 rest2 : List JVal,
      '|' ∉ (pyUpper dep1).data → '|' ∉ (pyUpper arr1).data → '|' ∉ (pyStrip ddt1).data →
      '|' ∉ (pyStrip adt1).data → '|' ∉ (pyUpper al1).data →
      '|' ∉ (pyUpper dep2).data → '|' ∉ (pyUpper arr2).data → '|' ∉ (pyStrip ddt2).data →
      '|' ∉ (pyStrip adt2).data → '|' ∉ (pyUpper al2).data →
      normSigFromResult (mkItinRec (mkSegRec dep1 arr1 ddt1 adt1 al1 fl1) rest1)
        = normSigFromResult (mkItinRec (mkSegRec dep2 arr2 ddt2 adt2 al2 fl2) rest2) →
      pyUpper dep1 = pyUpper dep2 ∧ pyUpper arr1 = pyUpper arr2
        ∧ pyStrip ddt1 = pyStrip ddt2 ∧ pyStrip adt1 = pyStrip adt2
        ∧ pyUpper al1 = pyUpper al2 ∧ pyStrip fl1 = pyStrip fl2) := by
  refine ⟨normSig_mkItinRec, flightKey_mkItinRec, ?_⟩
  intro dep1 arr1 ddt1 adt1 al1 fl1 dep2 arr2 ddt2 adt2 al2 fl2 rest1 rest2
  intro h1 h2 h3 h4 h5 h6 h7 h8 h9 h10 he
  rw [normSig_mkItinRec, normSig_mkItinRec] at he
  exact joinPipe6_inj _ _ _ _ _ _ _ _ _ _ _ _ h1 h2 h3 h4 h5 h6 h7 h8 h9 h10 he

/-- C2 witness: the key characterizations and the injectivity applied to a
concrete lower-case record and its upper-case variant. -/
theorem c2_key_witness :
    normSigFromResult (mkItinRec (mkSegRec "bgw" "dxb" "D1" "A1" "ia" "123") [])
      = "BGW|DXB|D1|A1|IA|123"
    ∧ flightKey (mkItinRec (mkSegRec "bgw" "dxb" "D1" "A1" "ia" "123") [])
      = "ia|123|bgw|dxb|D1|A1"
    ∧ pyStrip " 123 " = pyStrip "123" := by
  refine ⟨?_, ?_, ?_⟩
  · rw [c2_key_amended.1 "bgw" "dxb" "D1" "A1" "ia" "123" []]; decide
  · rw [c2_key_amended.2.1 "bgw" "dxb" "D1" "A1" "ia" "123"]; decide
  · have h := c2_key_amended.2.2 "bgw" "dxb" "D1" "A1" "ia" " 123 "
      "BGW" "DXB" "D1" "A1" "IA" "123" [] []
      (by decide) (by decide) (by decide) (by decide) (by decide)
      (by decide) (by decide) (by decide) (by decide) (by decide)
      (by decide)
    exact h.2.2.2.2.2

theorem lookup_setKey_same (kvs : List (String × JVal)) (k : String) (x : JVal) :
    (setKey kvs k x).lookup k = some x := by
  induction kvs with
  | nil => simp [setKey, List.lookup]
  | cons kv rest ih =>
    by_cases h : kv.1 = k
    · simp [setKey, h, List.lookup]
    · simp only [setKey]
      rw [if_neg (by exact fun hh => h (by cases kv; exact hh))]
      simp only [List.lookup]
      rw [show (k == kv.1) = false from beq_eq_false_iff_ne.mpr (fun hh => h hh.symm)]
      exact ih

theorem lookup_setKey_other (kvs : List (String × JVal)) (k k2 : String) (x : JVal)
    (hne : k2 ≠ k) : (setKey kvs k x).lookup k2 = kvs.lookup k2 := by
  induction kvs with
  | nil => simp [setKey, List.lookup, beq_eq_false_iff_ne.mpr hne]
  | cons kv rest ih =>
    by_cases h : kv.1 = k
    · cases kv with
      | mk k0 v0 =>
        have hk0 : k0 = k := h
        have hbf : (k2 == k0) = false :=
          beq_eq_false_iff_ne.mpr (fun hh => hne (hh.trans hk0))
        simp [setKey, hk0, List.lookup, hbf, beq_eq_false_iff_ne.mpr hne]
    · cases kv with
      | mk k0 v0 =>
        have hk0 : ¬ k0 = k := h
        simp only [setKey, if_neg hk0, List.lookup]
        rcases hbe : (k2 == k0) with _ | _
        · simpa [hbe] using ih
        · simp

theorem jget_jset_same (kvs : List (String × JVal)) (k : String) (x : JVal) :
    jget (jset (.obj kvs) k x) k = x := by
  simp [jset, jget, lookup_setKey_same]

theorem jget_jset_other (kvs : List (String × JVal)) (k k2 : String) (x : JVal)
    (hne : k2 ≠ k) : jget (jset (.obj kvs) k x) k2 = jget (.obj kvs) k2 := by
  simp [jset, jget, lookup_setKey_other kvs k k2 x hne]

theorem jset_obj_isObj (kvs : List (String × JVal)) (k : String) (x : JVal) :
    ∃ kvs2, jset (.obj kvs) k x = .obj kvs2 := ⟨setKey kvs k x, rfl⟩

theorem applyRoundtripInfo_hit (rtMap : List (String × RtInfo))
    (kvs : List (String × JVal)) (info : RtInfo)
    (hsome : rtMap.lookup (normSigFromResult (.obj kvs)) = some info) :
    applyRoundtripInfo rtMap (.obj kvs)
      = jset (jset (jset (.obj kvs) "roundtrip_total_currency" info.currency)
          "roundtrip_total_amount" info.amount) "roundtrip_amount_raw" info.amountRaw := by
  unfold applyRoundtripInfo
  rw [hsome]

/-- C7: the round-trip merge maps every return record through the
per-record enrichment; a record whose key misses the price map is returned
unchanged; a record whose key hits the map gains exactly the three
`roundtrip_*` fields carrying the map entry, while every other field — in
particular the original one-way `total_currency`, `total_amount` and
`amount_raw` — is unchanged. -/
theorem c7_roundtrip_merge (rtMap : List (String × RtInfo)) (results : List JVal)
    (rr : JVal) (kvs : List (String × JVal)) (info : RtInfo) :
    mergeRoundtrip rtMap results = results.map (applyRoundtripInfo rtMap)
    ∧ (rtMap.lookup (normSigFromResult rr) = none → applyRoundtripInfo rtMap rr = rr)
    ∧ (rr = .obj kvs → rtMap.lookup (normSigFromResult rr) = some info →
        jget (applyRoundtripInfo rtMap rr) "roundtrip_total_currency" = info.currency
        ∧ jget (applyRoundtripInfo rtMap rr) "roundtrip_total_amount" = info.amount
        ∧ jget (applyRoundtripInfo rtMap rr) "roundtrip_amount_raw" = info.amountRaw
        ∧ jget (applyRoundtripInfo rtMap rr) "total_currency" = jget rr "total_currency"
        ∧ jget (applyRoundtripInfo rtMap rr) "total_amount" = jget rr "total_amount"
        ∧ jget (applyRoundtripInfo rtMap rr) "amount_raw" = jget rr "amount_raw"
        ∧ ∀ k : String, k ≠ "roundtrip_total_currency" → k ≠ "roundtrip_total_amount" →
            k ≠ "roundtrip_amount_raw" →
            jget (applyRoundtripInfo rtMap rr) k = jget rr k) := by
  refine ⟨?_, ?_, ?_⟩
  · unfold mergeRoundtrip
    by_cases h : rtMap.isEmpty
    · rw [if_pos h]
      have hm : rtMap = [] := List.isEmpty_iff.mp h
      subst hm
      have hid : applyRoundtripInfo [] = id := funext fun v => rfl
      rw [hid, List.map_id]
    · rw [if_neg h]
  · intro h
    unfold applyRoundtripInfo
    rw [h]
  · intro hobj hsome
    subst hobj
    rw [applyRoundtripInfo_hit rtMap kvs info hsome]
    obtain ⟨k1, e1⟩ := jset_obj_isObj kvs "roundtrip_total_currency" info.currency
    obtain ⟨k2, e2⟩ := jset_obj_isObj k1 "roundtrip_total_amount" info.amount
    have frame : ∀ k : String, k ≠ "roundtrip_total_currency" → k ≠ "roundtrip_total_amount" →
        k ≠ "roundtrip_amount_raw" →
        jget (jset (jset (jset (.obj kvs) "roundtrip_total_currency" info.currency)
          "roundtrip_total_amount" info.amount) "roundtrip_amount_raw" info.amountRaw) k
          = jget (.obj kvs) k := by
      intro k hk1 hk2 hk3
      rw [e1, e2, jget_jset_other k2 "roundtrip_amount_raw" k info.amountRaw hk3,
        ← e2, jget_jset_other k1 "roundtrip_total_amount" k info.amount hk2,
        ← e1, jget_jset_other kvs "roundtrip_total_currency" k info.currency hk1]
    refine ⟨?_, ?_, ?_, frame "total_currency" (by decide) (by decide) (by decide),
      frame "total_amount" (by decide) (by decide) (by decide),
      frame "amount_raw" (by decide) (by decide) (by decide), frame⟩
    · rw [e1, e2, jget_jset_other k2 "roundtrip_amount_raw" "roundtrip_total_currency"
        info.amountRaw (by decide), ← e2, jget_jset_other k1 "roundtrip_total_amount"
        "roundtrip_total_currency" info.amount (by decide), ← e1,
        jget_jset_same kvs "roundtrip_total_currency" info.currency]
    · rw [e1, e2, jget_jset_other k2 "roundtrip_amount_raw" "roundtrip_total_amount"
        info.amountRaw (by decide), ← e2, jget_jset_same k1 "roundtrip_total_amount" info.amount]
    · rw [e1, e2, jget_jset_same k2 "roundtrip_amount_raw" info.amountRaw]

/-- C7 witness: the merge applied to a concrete matching record attaches the
round-trip amount while preserving the one-way amount field. -/
theorem c7_roundtrip_witness :
    jget (applyRoundtripInfo
        [(normSigFromResult exRec1, ⟨.str "IQD", .str "500,000", .num ⟨5000000, 1⟩⟩)] exRec1)
      "roundtrip_total_amount" = .str "500,000"
    ∧ jget (applyRoundtripInfo
        [(normSigFromResult exRec1, ⟨.str "IQD", .str "500,000", .num ⟨5000000, 1⟩⟩)] exRec1)
      "total_amount" = jget exRec1 "total_amount" := by
  have h := (c7_roundtrip_merge
    [(normSigFromResult exRec1, ⟨.str "IQD", .str "500,000", .num ⟨5000000, 1⟩⟩)]
    [] exRec1 [("segments", .arr [exSeg1])]
    ⟨.str "IQD", .str "500,000", .num ⟨5000000, 1⟩⟩).2.2 rfl (by decide)
  exact ⟨h.2.1, h.2.2.2.2.1⟩

theorem buildLegXml_nil (pi : JVal) (i : Nat) (h : segmentsFromPi pi i = []) :
    buildLegXml pi i = "" := by
  unfold buildLegXml
  rw [h]
  rfl

theorem build_vendor_missing (ob : JVal) (rp : Option JVal) (ps : List Passenger)
    (ct : Option Contact) (tt : String)
    (h : vendorComplete (ticketingVendor ob) = false) :
    buildAirbookXml ob rp ps ct tt
      = .error "TicketingVendor not found. Cannot book without vendor." := by
  unfold buildAirbookXml
  simp [h]

theorem build_no_outbound (ob : JVal) (rp : Option JVal) (ps : List Passenger)
    (ct : Option Contact) (tt : String)
    (hv : vendorComplete (ticketingVendor ob) = true)
    (h0 : segmentsFromPi ob 0 = []) :
    buildAirbookXml ob rp ps ct tt
      = .error "No outbound segments found in itinerary." := by
  unfold buildAirbookXml
  simp [hv, buildLegXml_nil ob 0 h0]

theorem bookHandler_build_error (pol : OtaPolicy) (ob : JVal) (retv : Option JVal)
    (ps : List Passenger) (ct : Option Contact) (tt uh : String)
    (net : String → NetResult) (msg : String)
    (ha : pol.availability = true) (he : pol.ticketingEffective = true)
    (hps : ps ≠ []) (hb : buildAirbookXml ob retv ps ct tt = .error msg) :
    bookHandler true pol (.ok ob) (retv.map Except.ok) ps ct tt uh net
      = (.pendingUpstream (pendingIdOf uh) "OTA" "Ticketing failed. Manual completion required.", 0) := by
  cases ps with
  | nil => exact absurd rfl hps
  | cons p ps2 =>
    cases retv with
    | none => simp [bookHandler, ha, he, hb]
    | some v => simp [bookHandler, ha, he, hb]

theorem bookHandler_build_ok (pol : OtaPolicy) (ob : JVal) (retv : Option JVal)
    (ps : List Passenger) (ct : Option Contact) (tt uh : String)
    (resp xml : String)
    (ha : pol.availability = true) (he : pol.ticketingEffective = true)
    (hps : ps ≠ []) (hb : buildAirbookXml ob retv ps ct tt = .ok xml) :
    bookHandler true pol (.ok ob) (retv.map Except.ok) ps ct tt uh
        (fun _ => .ok resp)
      = (.bookSuccess xml resp, 1) := by
  cases ps with
  | nil => exact absurd rfl hps
  | cons p ps2 =>
    cases retv with
    | none => simp [bookHandler, ha, he, hb]
    | some v => simp [bookHandler, ha, he, hb]

/-- Whether a booking response is one of the pending variants. -/
def isPending : BookResponse → Bool
  | .pendingPolicy _ _ _ => true
  | .pendingUpstream _ _ _ => true
  | _ => false

/-- C1 counterexample: an outbound itinerary with no discoverable vendor
(and an effective policy, a passenger, valid JSON) produces zero upstream
calls, but the outcome is a Pending response — not a rejection as the claim
states. -/
theorem c1_reject_counterexample :
    vendorComplete (ticketingVendor (JVal.obj [])) = false
    ∧ (bookHandler true exPolFull (.ok (.obj [])) none [exPax] none "oneway" "abc123def999"
        (fun _ => .httpStatusError)).2 = 0
    ∧ isPending (bookHandler true exPolFull (.ok (.obj [])) none [exPax] none "oneway"
        "abc123def999" (fun _ => .httpStatusError)).1 = true := by
  exact ⟨by decide, by decide, by decide⟩

/-- C1 (amended): when the outbound itinerary yields no complete vendor
descriptor under any lookup path, or yields no outbound segments, the
booking operation performs zero upstream network calls — but the `ValueError`
is swallowed by the surrounding handler and the outcome is a 202 Pending
response ("Ticketing failed. Manual completion required."), not a
rejection. -/
theorem c1_build_failure_pending (pol : OtaPolicy) (ob : JVal) (retv : Option JVal)
    (ps : List Passenger) (ct : Option Contact) (tt uh : String)
    (net : String → NetResult)
    (ha : pol.availability = true) (he : pol.ticketingEffective = true)
    (hps : ps ≠ [])
    (hfail : vendorComplete (ticketingVendor ob) = false ∨ segmentsFromPi ob 0 = []) :
    bookHandler true pol (.ok ob) (retv.map Except.ok) ps ct tt uh net
      = (.pendingUpstream (pendingIdOf uh) "OTA" "Ticketing failed. Manual completion required.", 0) := by
  rcases hfail with hv | hseg
  · exact bookHandler_build_error pol ob retv ps ct tt uh net _ ha he hps
      (build_vendor_missing ob retv ps ct tt hv)
  · cases hvc : vendorComplete (ticketingVendor ob) with
    | true =>
      exact bookHandler_build_error pol ob retv ps ct tt uh net _ ha he hps
        (build_no_outbound ob retv ps ct tt hvc hseg)
    | false =>
      exact bookHandler_build_error pol ob retv ps ct tt uh net _ ha he hps
        (build_vendor_missing ob retv ps ct tt hvc)

/-- C1 witness: the amended behaviour at a concrete vendor-less itinerary. -/
theorem c1_build_failure_witness :
    bookHandler true exPolFull (.ok (.obj [])) ((none : Option JVal).map Except.ok) [exPax]
        none "oneway" "abc123def999" (fun _ => .httpStatusError)
      = (.pendingUpstream "PND-ABC123DEF9" "OTA" "Ticketing failed. Manual completion required.", 0) := by
  have h := c1_build_failure_pending exPolFull (.obj []) none [exPax] none "oneway"
    "abc123def999" (fun _ => .httpStatusError) (by decide) (by decide)
    (by decide) (Or.inl (by decide))
  rw [h]
  decide

theorem pendingIdOf_ne_empty (uh : String) : pendingIdOf uh ≠ "" := by
  intro h
  have hd := congrArg String.data h
  rw [pendingIdOf, String.data_append] at hd
  simp at hd

/-- The provider configuration with availability switched off. -/
def exCfgAvailOff : JVal := .obj [("availability_enabled", .bool false)]

/-- C4 counterexample: with availability disabled the ticketing policy is not
effective, yet the booking operation returns the provider-disabled response,
not a Pending outcome — so "availability disabled implies an immediate
Pending" fails on the code. -/
theorem c4_policy_counterexample :
    (otaPolicy (some exCfgAvailOff) 0 0).ticketingEffective = false
    ∧ bookHandler true (otaPolicy (some exCfgAvailOff) 0 0) (.ok exOutbound) none [exPax]
        none "oneway" "u1" (fun _ => .ok "r")
      = (.disabledMeta "Provider OTA is disabled", 0)
    ∧ isPending (bookHandler true (otaPolicy (some exCfgAvailOff) 0 0) (.ok exOutbound) none
        [exPax] none "oneway" "u1" (fun _ => .ok "r")).1 = false := by
  exact ⟨by decide, by decide, by decide⟩

/-- C4 (amended): ticketing is effective exactly when availability is on, the
ticketing mode is `"full"` and the schedule check passes.  When availability
is on but ticketing is not effective, booking immediately returns a Pending
outcome that carries a non-empty pendingId, the provider identifier and a
human-readable reason, with zero upstream calls.  When availability is off,
booking instead returns the provider-disabled response, also with zero
upstream calls. -/
theorem c4_policy_pending (p : JVal) (wd : Int) (nowSec : Nat)
    (outbound : Except String JVal) (ret : Option (Except String JVal))
    (ps : List Passenger) (ct : Option Contact) (tt uh : String)
    (net : String → NetResult) :
    (otaPolicy (some p) wd nowSec).ticketingEffective
      = ((otaPolicy (some p) wd nowSec).availability
          && ((otaPolicy (some p) wd nowSec).ticketingMode == "full")
          && (otaPolicy (some p) wd nowSec).ticketingScheduleOk)
    ∧ ((otaPolicy (some p) wd nowSec).availability = true →
        (otaPolicy (some p) wd nowSec).ticketingEffective = false →
        bookHandler true (otaPolicy (some p) wd nowSec) outbound ret ps ct tt uh net
          = (.pendingPolicy (pendingIdOf uh) "OTA"
              "Ticketing is disabled by permissions or schedule.", 0))
    ∧ ((otaPolicy (some p) wd nowSec).availability = false →
        bookHandler true (otaPolicy (some p) wd nowSec) outbound ret ps ct tt uh net
          = (.disabledMeta "Provider OTA is disabled", 0))
    ∧ pendingIdOf uh ≠ "" := by
  refine ⟨?_, ?_, ?_, pendingIdOf_ne_empty uh⟩
  · cases p with
    | obj kvs =>
      by_cases hm : pyLower (pyStrip (pyStr (pyOr (jget (.obj kvs) "ticketing_mode") (.str "full")))) = "full"
      · simp [otaPolicy, hm]
      · simp [otaPolicy, hm]
    | null => rfl
    | bool b => rfl
    | str s => rfl
    | num d => rfl
    | arr xs => rfl
  · intro ha he
    simp [bookHandler, ha, he]
  · intro ha
    simp [bookHandler, ha]

/-- C4 witness: a provider in availability-only mode yields the immediate
Pending outcome without network calls. -/
theorem c4_policy_witness :
    bookHandler true (otaPolicy (some (.obj [("ticketing_mode", .str "availability_only")])) 0 0)
        (.ok exOutbound) none [exPax] none "oneway" "abc123def999" (fun _ => .ok "r")
      = (.pendingPolicy "PND-ABC123DEF9" "OTA"
          "Ticketing is disabled by permissions or schedule.", 0) := by
  have h := (c4_policy_pending (.obj [("ticketing_mode", .str "availability_only")]) 0 0
    (.ok exOutbound) none [exPax] none "oneway" "abc123def999" (fun _ => .ok "r")).2.1
    (by decide) (by decide)
  rw [h]
  decide

theorem build_ok_of (ob : JVal) (rp : Option JVal) (ps : List Passenger)
    (ct : Option Contact) (tt : String)
    (hv : vendorComplete (ticketingVendor ob) = true)
    (hleg : buildLegXml ob 0 ≠ "") :
    ∃ xml, buildAirbookXml ob rp ps ct tt = .ok xml := by
  unfold buildAirbookXml
  simp [hv, hleg]

/-- C10: when the return itinerary yields no segments at leg index 0 and none
at leg index 1, the booking XML equals the XML built with no return
itinerary at all — only the outbound OriginDestinationOption block — and the
booking proceeds to a success through the upstream call: the round-trip
request silently degrades to a one-way booking payload with no rejection and
no Pending caused by the missing return leg. -/
theorem c10_missing_return_leg (ob rp : JVal) (ps : List Passenger)
    (ct : Option Contact) (uh resp : String) (pol : OtaPolicy)
    (h0 : segmentsFromPi rp 0 = []) (h1 : segmentsFromPi rp 1 = []) :
    buildAirbookXml ob (some rp) ps ct "roundtrip" = buildAirbookXml ob none ps ct "roundtrip"
    ∧ (vendorComplete (ticketingVendor ob) = true → buildLegXml ob 0 ≠ "" → ps ≠ [] →
        pol.availability = true → pol.ticketingEffective = true →
        ∃ xml, buildAirbookXml ob (some rp) ps ct "roundtrip" = .ok xml
          ∧ bookHandler true pol (.ok ob) ((some rp).map Except.ok) ps ct "roundtrip" uh
              (fun _ => .ok resp)
            = (.bookSuccess xml resp, 1)) := by
  have hsame : buildAirbookXml ob (some rp) ps ct "roundtrip"
      = buildAirbookXml ob none ps ct "roundtrip" := by
    unfold buildAirbookXml
    simp only [buildLegXml_nil rp 0 h0, buildLegXml_nil rp 1 h1]
    rfl
  refine ⟨hsame, ?_⟩
  intro hv hleg hps ha he
  obtain ⟨xml, hx⟩ := build_ok_of ob (some rp) ps ct "roundtrip" hv hleg
  exact ⟨xml, hx, bookHandler_build_ok pol ob (some rp) ps ct "roundtrip" uh resp xml
    ha he hps hx⟩

/-- C10 witness: a concrete round-trip booking whose return payload has no
segments at either leg index builds the one-way XML and succeeds. -/
theorem c10_missing_return_witness :
    buildAirbookXml exOutbound (some (.obj [])) [exPax] none "roundtrip"
      = buildAirbookXml exOutbound none [exPax] none "roundtrip"
    ∧ isSuccess (bookHandler true exPolFull (.ok exOutbound)
        ((some (JVal.obj [])).map Except.ok) [exPax] none "roundtrip" "u" (fun _ => .ok "r")).1
      = true
    ∧ (bookHandler true exPolFull (.ok exOutbound) ((some (JVal.obj [])).map Except.ok)
        [exPax] none "roundtrip" "u" (fun _ => .ok "r")).2 = 1 := by
  have h := c10_missing_return_leg exOutbound (.obj []) [exPax] none "u" "r" exPolFull
    (by decide) (by decide)
  obtain ⟨xml, hx, hbook⟩ := h.2 (by decide) (by decide) (by decide) (by decide) (by decide)
  refine ⟨h.1, ?_, ?_⟩
  · rw [hbook]; rfl
  · rw [hbook]

theorem lookup_append_single (l : List (String × Option Nat)) (k k0 : String) (v0 : Option Nat) :
    (l ++ [(k0, v0)]).lookup k
      = match l.lookup k with
        | some v => some v
        | none => if k = k0 then some v0 else none := by
  induction l with
  | nil =>
    simp only [List.nil_append, List.lookup]
    by_cases h : k = k0
    · simp [h]
    · simp [beq_eq_false_iff_ne.mpr h, h]
  | cons kv rest ih =>
    simp only [List.cons_append, List.lookup]
    rcases hbe : (k == kv.1) with _ | _
    · cases kv
      simp only [List.lookup, hbe] at ih ⊢
      exact ih
    · cases kv
      simp [List.lookup, hbe]

theorem lookup_initStep (acc : List (String × Option Nat)) (k0 k : String) :
    (initStep acc k0).lookup k
      = match acc.lookup k with
        | some v => some v
        | none => if k = k0 ∧ k ≠ "" then some none else none := by
  unfold initStep
  by_cases h0 : k0 = ""
  · rw [if_pos h0]
    cases hl : acc.lookup k with
    | some v => simp [hl]
    | none =>
      have : ¬ (k = k0 ∧ k ≠ "") := fun hc => hc.2 (hc.1.trans h0)
      simp [hl, this]
  · rw [if_neg h0]
    by_cases hs : (acc.lookup k0).isSome
    · rw [if_pos hs]
      cases hl : acc.lookup k with
      | some v => simp [hl]
      | none =>
        have hne : ¬ (k = k0 ∧ k ≠ "") := by
          intro hc
          rw [hc.1] at hl
          rw [hl] at hs
          simp at hs
        simp [hl, hne]
    · rw [if_neg hs]
      rw [lookup_append_single]
      cases hl : acc.lookup k with
      | some v => simp
      | none =>
        by_cases hk : k = k0
        · subst hk
          simp [h0]
        · simp [hk]

theorem initSeats_go (keys : List String) :
    ∀ (acc : List (String × Option Nat)) (k : String),
      ((keys.foldl initStep acc).lookup k)
        = match acc.lookup k with
          | some v => some v
          | none => if k ∈ keys ∧ k ≠ "" then some none else none := by
  induction keys with
  | nil =>
    intro acc k
    cases hl : acc.lookup k <;> simp [hl]
  | cons k0 rest ih =>
    intro acc k
    rw [List.foldl_cons, ih (initStep acc k0) k, lookup_initStep]
    cases hl : acc.lookup k with
    | some v => simp
    | none =>
      by_cases hk0 : k = k0 ∧ k ≠ ""
      · rw [if_pos hk0]
        have hc : k ∈ k0 :: rest ∧ k ≠ "" :=
          ⟨by rw [hk0.1]; exact List.mem_cons_self k0 rest, hk0.2⟩
        simp [hc]
      · rw [if_neg hk0]
        by_cases hmem : k ∈ rest ∧ k ≠ ""
        · have hc : k ∈ k0 :: rest ∧ k ≠ "" := ⟨List.mem_cons_of_mem k0 hmem.1, hmem.2⟩
          simp [hmem, hc]
        · have hc : ¬ (k ∈ k0 :: rest ∧ k ≠ "") := by
            intro hc
            rcases List.mem_cons.mp hc.1 with h | h
            · exact hk0 ⟨h, hc.2⟩
            · exact hmem ⟨h, hc.2⟩
          have hc2 : ¬ ((k = k0 ∨ k ∈ rest) ∧ ¬ k = "") := by
            simpa [List.mem_cons] using hc
          simp [hmem, hc2]

theorem lookup_initSeats (keys : List String) (k : String) :
    (initSeats keys).lookup k = if k ∈ keys ∧ k ≠ "" then some none else none := by
  have h := initSeats_go keys [] k
  simpa [initSeats, List.lookup] using h

theorem lookup_map_keyed {α β : Type} (l : List (String × α)) (f : String → α → β) (k : String) :
    (l.map (fun kv => (kv.1, f kv.1 kv.2))).lookup k = (l.lookup k).map (f k) := by
  induction l with
  | nil => rfl
  | cons kv rest ih =>
    cases kv with
    | mk k0 v0 =>
      simp only [List.map_cons, List.lookup]
      rcases hbe : (k == k0) with _ | _
      · exact ih
      · have : k = k0 := beq_iff_eq.mp hbe
        simp [this]

theorem lookup_probeStep (present : List String) (p : Nat)
    (seats : List (String × Option Nat)) (k : String) :
    (probeStep present p seats).lookup k
      = (seats.lookup k).map
          (fun v => if v = none ∧ k ∉ present then some (p - 1) else v) := by
  unfold probeStep
  exact lookup_map_keyed seats (fun k1 v => if v = none ∧ k1 ∉ present then some (p - 1) else v) k

theorem lookup_finalizeSeats (seats : List (String × Option Nat)) (k : String) :
    (finalizeSeats seats).lookup k = (seats.lookup k).map (fun v => v.getD 9) := by
  unfold finalizeSeats
  exact lookup_map_keyed seats (fun _ v => v.getD 9) k

/-- The pure probe loop over total probe results. -/
def probeFold (pres : Nat → List String) (ps : List Nat)
    (seats : List (String × Option Nat)) : List (String × Option Nat) :=
  ps.foldl (fun s p => probeStep (pres p) p s) seats

theorem runProbes_total (ro ri : Nat → List JVal) :
    ∀ (ps : List Nat) (so si : List (String × Option Nat)),
      runProbes (fun p => .ok (ro p, ri p)) ps so si
        = .ok (probeFold (fun p => presentKeys (ro p)) ps so,
            probeFold (fun p => presentKeys (ri p)) ps si) := by
  intro ps
  induction ps with
  | nil => intro so si; rfl
  | cons p rest ih =>
    intro so si
    simp only [runProbes, probeFold, List.foldl_cons]
    exact ih _ _

theorem probeFold_lookup (pres : Nat → List String) (ps : List Nat) :
    ∀ (seats : List (String × Option Nat)) (k : String),
      (probeFold pres ps seats).lookup k
        = (seats.lookup k).map (fun v =>
            match v with
            | some n => some n
            | none =>
              match ps.find? (fun p => decide (k ∉ pres p)) with
              | some p => some (p - 1)
              | none => none) := by
  induction ps with
  | nil =>
    intro seats k
    cases hl : seats.lookup k with
    | none => simp [probeFold, hl]
    | some v => cases v <;> simp [probeFold, hl]
  | cons p rest ih =>
    intro seats k
    have hstep : probeFold pres (p :: rest) seats
        = probeFold pres rest (probeStep (pres p) p seats) := rfl
    rw [hstep, ih (probeStep (pres p) p seats) k, lookup_probeStep]
    cases hl : seats.lookup k with
    | some v =>
      cases v with
      | none =>
        by_cases habs : k ∈ pres p
        · simp [List.find?, habs]
        · simp [List.find?, habs]
      | some n =>
        by_cases habs : k ∈ pres p
        · simp [List.find?, habs]
        · simp [List.find?, habs]
    | none => simp

/-- The seat value the specification predicts for a key: one less than the
first probed total at which the key is absent, or the display cap 9 when the
key is never absent. -/
def seatSpec (bt : Nat) (pres : Nat → List String) (k : String) : Nat :=
  match (List.range' (bt + 1) (8 - bt)).find? (fun p => decide (k ∉ pres p)) with
  | some p => p - 1
  | none => 9

theorem estimate_probe_path (keysOut keysIn : List String) (a c i : Nat)
    (ro ri : Nat → List JVal)
    (hlt : max 1 (a + c + i) < 8)
    (hne : ¬ ((initSeats keysOut).isEmpty ∧ (initSeats keysIn).isEmpty)) :
    estimateSeatsForKeys keysOut keysIn a c i (fun p => .ok (ro p, ri p))
      = (finalizeSeats (probeFold (fun p => presentKeys (ro p))
            (List.range' (max 1 (a + c + i) + 1) (8 - max 1 (a + c + i))) (initSeats keysOut)),
         finalizeSeats (probeFold (fun p => presentKeys (ri p))
            (List.range' (max 1 (a + c + i) + 1) (8 - max 1 (a + c + i))) (initSeats keysIn))) := by
  simp only [estimateSeatsForKeys]
  rw [if_neg hne, if_neg (by omega : ¬ (8 ≤ max 1 (a + c + i)))]
  rw [runProbes_total]

/-- C6: with `maxCheck = 8`, a base total of at least 8 assigns every
requested key `min 9 baseTotal` for any probe oracle (no probing); otherwise,
over the ascending probes `baseTotal+1 .. 8`, each requested key resolves to
`p - 1` for the first probed total `p` at which it is absent from the
filtered results, and to the display cap `9` when it is never absent. -/
theorem c6_seat_estimation (keysOut keysIn : List String) (a c i : Nat)
    (probe : Nat → Except Unit (List JVal × List JVal))
    (ro ri : Nat → List JVal) (k : String) :
    (8 ≤ max 1 (a + c + i) →
      estimateSeatsForKeys keysOut keysIn a c i probe
        = ((initSeats keysOut).map (fun kv => (kv.1, min 9 (max 1 (a + c + i)))),
           (initSeats keysIn).map (fun kv => (kv.1, min 9 (max 1 (a + c + i))))))
    ∧ (max 1 (a + c + i) < 8 →
        ((estimateSeatsForKeys keysOut keysIn a c i (fun p => .ok (ro p, ri p))).1.lookup k
            = if k ∈ keysOut ∧ k ≠ "" then
                some (seatSpec (max 1 (a + c + i)) (fun p => presentKeys (ro p)) k)
              else none)
          ∧ ((estimateSeatsForKeys keysOut keysIn a c i (fun p => .ok (ro p, ri p))).2.lookup k
            = if k ∈ keysIn ∧ k ≠ "" then
                some (seatSpec (max 1 (a + c + i)) (fun p => presentKeys (ri p)) k)
              else none)) := by
  constructor
  · intro h8
    by_cases hemp : (initSeats keysOut).isEmpty ∧ (initSeats keysIn).isEmpty
    · have e1 : initSeats keysOut = [] := List.isEmpty_iff.mp hemp.1
      have e2 : initSeats keysIn = [] := List.isEmpty_iff.mp hemp.2
      simp [estimateSeatsForKeys, hemp, e1, e2]
    · simp only [estimateSeatsForKeys]
      rw [if_neg hemp, if_pos h8]
  · intro hlt
    by_cases hemp : (initSeats keysOut).isEmpty ∧ (initSeats keysIn).isEmpty
    · have e1 : initSeats keysOut = [] := List.isEmpty_iff.mp hemp.1
      have e2 : initSeats keysIn = [] := List.isEmpty_iff.mp hemp.2
      have hno1 : ¬ (k ∈ keysOut ∧ k ≠ "") := by
        intro hc
        have hl := lookup_initSeats keysOut k
        rw [e1] at hl
        simp [hc] at hl
      have hno2 : ¬ (k ∈ keysIn ∧ k ≠ "") := by
        intro hc
        have hl := lookup_initSeats keysIn k
        rw [e2] at hl
        simp [hc] at hl
      constructor
      · simp [estimateSeatsForKeys, hemp, hno1]
      · simp [estimateSeatsForKeys, hemp, hno2]
    · rw [estimate_probe_path keysOut keysIn a c i ro ri hlt hemp]
      constructor
      · rw [lookup_finalizeSeats, probeFold_lookup, lookup_initSeats]
        by_cases hc : k ∈ keysOut ∧ k ≠ ""
        · rw [if_pos hc, if_pos hc]
          cases hf : (List.range' (max 1 (a + c + i) + 1) (8 - max 1 (a + c + i))).find?
              (fun p => decide (k ∉ presentKeys (ro p))) with
          | some p =>
            simp only [decide_not] at hf
            simp [seatSpec, hf]
          | none =>
            simp only [decide_not] at hf
            simp [seatSpec, hf]
        · rw [if_neg hc, if_neg hc]
          rfl
      · rw [lookup_finalizeSeats, probeFold_lookup, lookup_initSeats]
        by_cases hc : k ∈ keysIn ∧ k ≠ ""
        · rw [if_pos hc, if_pos hc]
          cases hf : (List.range' (max 1 (a + c + i) + 1) (8 - max 1 (a + c + i))).find?
              (fun p => decide (k ∉ presentKeys (ri p))) with
          | some p =>
            simp only [decide_not] at hf
            simp [seatSpec, hf]
          | none =>
            simp only [decide_not] at hf
            simp [seatSpec, hf]
        · rw [if_neg hc, if_neg hc]
          rfl

/-- The outbound probe results of the witness scenario: the first record is
absent from pax totals 5 and above, the second is always present. -/
def roW (p : Nat) : List JVal := if p ≤ 4 then [exRec1, exRec2] else [exRec2]

/-- The (empty) return probe results of the witness scenario. -/
def riW (_ : Nat) : List JVal := []

/-- C6 witness: with base total 2, a key first absent at pax total 5 resolves
to 4, a key present through 8 resolves to 9, and with base total 9 no probe
is issued and every key gets `min 9 9 = 9` even under an erroring oracle. -/
theorem c6_seat_witness :
    (estimateSeatsForKeys [exKey1, exKey2] [] 2 0 0
        (fun p => .ok (roW p, riW p))).1.lookup exKey1 = some 4
    ∧ (estimateSeatsForKeys [exKey1, exKey2] [] 2 0 0
        (fun p => .ok (roW p, riW p))).1.lookup exKey2 = some 9
    ∧ estimateSeatsForKeys [exKey1] [] 9 0 0 (fun _ => .error ())
        = ([(exKey1, 9)], []) := by
  refine ⟨?_, ?_, ?_⟩
  · rw [((c6_seat_estimation [exKey1, exKey2] [] 2 0 0 (fun _ => .error ()) roW riW
      exKey1).2 (by decide)).1]
    decide
  · rw [((c6_seat_estimation [exKey1, exKey2] [] 2 0 0 (fun _ => .error ()) roW riW
      exKey2).2 (by decide)).1]
    decide
  · rw [(c6_seat_estimation [exKey1] [] 9 0 0 (fun _ => .error ()) roW riW exKey1).1
      (by decide)]
    decide
